import Mathlib

/-!
Verification of the auto-calibration engine of checkmeasure-ai.

The definitions below are a shallow embedding of
`src/backend/pdf_processing/calibration/` (files `standard_components.py`,
`calibration_types.py`, `auto_calibrator.py`).  Python floats are modelled
as exact rationals (`ℚ`), Python dicts keyed by strings as association
lists in insertion order, optional dict keys as `Option`, and code that
can raise as `Except`/`Option`-valued functions.
-/

namespace CheckMeasure

/-! ### Python string primitives (ASCII fragment used by the labels) -/

/-- `str.upper` restricted to ASCII letters (the labels in play are ASCII). -/
def pyCharUpper (c : Char) : Char :=
  if 97 ≤ c.toNat ∧ c.toNat ≤ 122 then Char.ofNat (c.toNat - 32) else c

/-- `str.upper` on a whole string. -/
def pyUpper (s : String) : String := ⟨s.data.map pyCharUpper⟩

/-- Python whitespace class (`\s`, ASCII fragment): space, tab, LF, VT, FF, CR. -/
def pyIsSpace (c : Char) : Bool :=
  c = ' ' || c = '\t' || c = '\n' || c = '\x0b' || c = '\x0c' || c = '\r'

/-- `str.strip()`: drop leading and trailing whitespace. -/
def pyStrip (s : String) : String :=
  ⟨((s.data.dropWhile pyIsSpace).reverse.dropWhile pyIsSpace).reverse⟩

/-- Is `pre` a prefix of `l`? (used to model Python `in` on strings). -/
def isPrefixL : List Char → List Char → Bool
  | [], _ => true
  | _ :: _, [] => false
  | a :: as, b :: bs => a = b && isPrefixL as bs

/-- Does `hay` contain `needle` as a contiguous substring?  Models the
Python expression `needle in hay` on strings. -/
def containsSubL (needle : List Char) : List Char → Bool
  | [] => isPrefixL needle []
  | c :: rest => isPrefixL needle (c :: rest) || containsSubL needle rest

/-- `needle in hay` for `String`s. -/
def containsSub (hay needle : String) : Bool := containsSubL needle.data hay.data

/-- Numeric value of a list of ASCII digits, most significant first
(`float` applied to a `\d+` regex group in the source, which is always an
exact nonnegative integer). -/
def digitsToNat (ds : List Char) : ℕ := ds.foldl (fun acc c => 10 * acc + (c.toNat - 48)) 0

/-! ### `standard_components.py`: reference tables and the timber-size parser -/

/-- One entry of `STEEL_SECTIONS` (all five dict keys are always present). -/
structure SteelSection where
  depth : ℚ
  flange_width : ℚ
  web_thickness : ℚ
  flange_thickness : ℚ
  type : String
deriving DecidableEq

/-- `STEEL_SECTIONS`, in dict insertion order. -/
def STEEL_SECTIONS : List (String × SteelSection) :=
  [ ("200PFC", ⟨200, 75, 6, 11, "PFC"⟩),
    ("250PFC", ⟨250, 90, 8, 13, "PFC"⟩),
    ("300PFC", ⟨300, 100, 9, 16, "PFC"⟩),
    ("200UB18", ⟨198, 99, 4.5, 7, "UB"⟩),
    ("200UB22", ⟨202, 133, 5.0, 6.8, "UB"⟩),
    ("200UB25", ⟨203, 133, 5.8, 7.8, "UB"⟩),
    ("250UB25", ⟨248, 124, 5.0, 8.0, "UB"⟩),
    ("250UB31", ⟨252, 146, 6.1, 8.6, "UB"⟩),
    ("310UB32", ⟨298, 149, 5.5, 8.0, "UB"⟩),
    ("200UC46", ⟨203, 203, 7.2, 11.0, "UC"⟩),
    ("200UC52", ⟨206, 204, 7.9, 12.5, "UC"⟩),
    ("250UC72", ⟨254, 254, 8.6, 14.2, "UC"⟩) ]

/-- `STANDARD_SPACINGS`, in dict insertion order (order matters: the
extractor takes the first key that occurs inside the label). -/
def STANDARD_SPACINGS : List (String × ℚ) :=
  [ ("300CTS", 300), ("450CTS", 450), ("600CTS", 600),
    ("300 CTS", 300), ("450 CTS", 450), ("600 CTS", 600),
    ("@300", 300), ("@450", 450), ("@600", 600),
    ("@ 300", 300), ("@ 450", 450), ("@ 600", 600) ]

/-- Exact-key lookup in an association list (Python `dict[key]` / `in`). -/
def lookup {α : Type} : List (String × α) → String → Option α
  | [], _ => none
  | (k, v) :: rest, key => if k = key then some v else lookup rest key

/-- `parse_timber_size`: models `re.match(r'(\d+)\s*[xX]\s*(\d+)', s.strip())`.
`re.match` anchors at the start of the string only; trailing characters
after the second digit group are ignored.  The two groups are converted
with `float`, which is exact on digit strings. -/
def parseTimberSize (size_string : String) : Option (ℚ × ℚ) :=
  let cs := (pyStrip size_string).data
  let d1 := cs.takeWhile Char.isDigit
  let rest1 := cs.dropWhile Char.isDigit
  if d1 = [] then none
  else
    match rest1.dropWhile pyIsSpace with
    | [] => none
    | c :: rest2 =>
      if c = 'x' ∨ c = 'X' then
        let d2 := (rest2.dropWhile pyIsSpace).takeWhile Char.isDigit
        if d2 = [] then none
        else some ((digitsToNat d1 : ℚ), (digitsToNat d2 : ℚ))
      else none

/-! ### `calibration_types.py` -/

/-- `CalibrationMethod` enum.  (`SCALE` is named `SCALE_NOTATION` in the
source; its `.value` string is kept verbatim.) -/
inductive CalibrationMethod where
  | STEEL_SECTION
  | TIMBER_SIZE
  | SPACING_PATTERN
  | SCALE
  | MANUAL
  | NONE
deriving DecidableEq

/-- The `.value` string of a `CalibrationMethod` member. -/
def CalibrationMethod.value : CalibrationMethod → String
  | .STEEL_SECTION => "steel_section"
  | .TIMBER_SIZE => "timber_size"
  | .SPACING_PATTERN => "spacing_pattern"
  | .SCALE => "scale_notation"
  | .MANUAL => "manual"
  | .NONE => "none"

/-- `ComponentDetection` dataclass (one piece of size evidence). -/
structure ComponentDetection where
  label : String
  component_type : String
  pixel_dimension : ℚ
  expected_mm : ℚ
  confidence : ℚ
  location : Option (ℚ × ℚ) := none
  measurement_axis : String := "horizontal"
deriving DecidableEq

/-- `ComponentDetection.pixels_per_mm` property:
`pixel_dimension / expected_mm` when `expected_mm > 0`, else `0`. -/
def ComponentDetection.pixels_per_mm (c : ComponentDetection) : ℚ :=
  if 0 < c.expected_mm then c.pixel_dimension / c.expected_mm else 0

/-- `CalibrationCandidate` dataclass. -/
structure CalibrationCandidate where
  method : CalibrationMethod
  components : List ComponentDetection
  pixels_per_mm : ℚ
  confidence : ℚ
  variance : ℚ
deriving DecidableEq

/-- `CalibrationCandidate.component_count` property. -/
def CalibrationCandidate.component_count (c : CalibrationCandidate) : ℕ :=
  c.components.length

/-- `CalibrationCandidate.reliability_score` property.  The source divides
by `len(self.components)`; every candidate the estimators build has a
nonempty component list. -/
def CalibrationCandidate.reliability_score (c : CalibrationCandidate) : ℚ :=
  ((c.components.map ComponentDetection.confidence).sum / (c.components.length : ℚ)) *
    min ((c.components.length : ℚ) / 3) 1 *
    max 0 (1 - c.variance * 10)

/-- One entry of the `measurements` list inside `calibration_details`. -/
structure MeasurementDetail where
  component : String
  pixels : ℚ
  expected_mm : ℚ
  ratio : ℚ
deriving DecidableEq

/-- The `calibration_details` dict, which has one of three shapes in the
source (auto-calibration, scale fallback, failure). -/
inductive CalibrationDetails where
  | auto (method : String) (component_count : ℕ) (variance : ℚ)
      (measurements : List MeasurementDetail)
  | scaleBased (scale_factor : ℚ) (assumed_dpi : ℕ) (assumed_paper_size : String)
  | failure (error : String)
deriving DecidableEq

/-- `CalibrationResult` dataclass. -/
structure CalibrationResult where
  method : CalibrationMethod
  pixels_per_mm : ℚ
  mm_per_pixel : ℚ
  confidence : ℚ
  reference_components : List String
  calibration_details : CalibrationDetails
  status : String
deriving DecidableEq

/-- Constructing a `CalibrationResult` runs `__post_init__`, which always
overwrites `mm_per_pixel` with `1 / pixels_per_mm` (or `0` when
`pixels_per_mm ≤ 0`), whatever value was passed for it. -/
def mkCalibrationResult (method : CalibrationMethod)
    (pixels_per_mm mm_per_pixel confidence : ℚ)
    (reference_components : List String) (calibration_details : CalibrationDetails)
    (status : String) : CalibrationResult :=
  { method := method
    pixels_per_mm := pixels_per_mm
    mm_per_pixel := if 0 < pixels_per_mm then 1 / pixels_per_mm else 0
    confidence := confidence
    reference_components := reference_components
    calibration_details := calibration_details
    status := status }

/-- `CalibrationResult.convert_pixels_to_mm`. -/
def CalibrationResult.convert_pixels_to_mm (r : CalibrationResult) (pixels : ℚ) : ℚ :=
  pixels * r.mm_per_pixel

/-- `CalibrationResult.convert_mm_to_pixels`. -/
def CalibrationResult.convert_mm_to_pixels (r : CalibrationResult) (mm : ℚ) : ℚ :=
  mm * r.pixels_per_mm

/-- Python `int()` on a rational: truncation toward zero. -/
def pyInt (q : ℚ) : ℤ := if 0 ≤ q then ⌊q⌋ else ⌈q⌉

/-- `CalibrationResult.from_scale`.  The source computes
`4961 / (420 * scale_factor)`, which raises `ZeroDivisionError` when
`scale_factor == 0`; that case is modelled as `none`.  The source also
passes `1.0 / pixels_per_mm` for `mm_per_pixel`; `__post_init__`
overwrites it. -/
def CalibrationResult.from_scale (scale_factor : ℚ) (confidence : ℚ := 0.8) :
    Option CalibrationResult :=
  if (420 : ℚ) * scale_factor = 0 then none
  else
    some (mkCalibrationResult .SCALE ((4961 : ℚ) / (420 * scale_factor))
      (1 / ((4961 : ℚ) / (420 * scale_factor))) (confidence * 0.7)
      ["Scale 1:" ++ toString (pyInt scale_factor)]
      (.scaleBased scale_factor 300 "A3") "scale_based")

/-- `CalibrationResult.none`: the failure result. -/
def CalibrationResult.none : CalibrationResult :=
  mkCalibrationResult .NONE 0 0 0 [] (.failure "No calibration available") "failed"

/-! ### Detected elements (input contract of `auto_calibrate`) -/

/-- The `measurements` sub-dict of a detected element; each key optional. -/
structure Measurements where
  height_pixels : Option ℚ := Option.none
  width_pixels : Option ℚ := Option.none
  spacing_pixels : Option ℚ := Option.none
deriving DecidableEq

/-- Python truthiness of the `measurements` dict (`if not measurements`). -/
def Measurements.isEmpty (m : Measurements) : Bool :=
  m.height_pixels.isNone && m.width_pixels.isNone && m.spacing_pixels.isNone

/-- One detected element.  `element.get("label", "")` is modelled by
making `label` a plain string defaulting to `""`; `confidence` stays
optional because `element.get("confidence", 0.5)` supplies `0.5` when the
key is missing. -/
structure DetectedElement where
  label : String := ""
  confidence : Option ℚ := Option.none
  measurements : Measurements := {}
  location : Option (ℚ × ℚ) := Option.none
deriving DecidableEq

/-! ### `_extract_components` -/

/-- Steel branch of `_extract_components` for one element (`label` is the
uppercased label, `conf` is the resolved confidence). -/
def steelEvidence (label : String) (conf : ℚ) (m : Measurements)
    (loc : Option (ℚ × ℚ)) : List ComponentDetection :=
  match lookup STEEL_SECTIONS label with
  | Option.none => []
  | some s =>
    (match m.height_pixels with
     | Option.none => []
     | some hp =>
       [{ label := label, component_type := "steel", pixel_dimension := hp,
          expected_mm := s.depth, confidence := conf, location := loc,
          measurement_axis := "vertical" }]) ++
    (match m.width_pixels with
     | Option.none => []
     | some wp =>
       if s.flange_width ≠ 0 then
         [{ label := label ++ "_flange", component_type := "steel",
            pixel_dimension := wp, expected_mm := s.flange_width,
            confidence := conf * 0.9, location := loc,
            measurement_axis := "horizontal" }]
       else [])

/-- Timber branch of `_extract_components` for one element.  Note the
source emits the `width_pixels` evidence before the `height_pixels`
evidence. -/
def timberEvidence (label : String) (conf : ℚ) (m : Measurements)
    (loc : Option (ℚ × ℚ)) : List ComponentDetection :=
  match parseTimberSize label with
  | Option.none => []
  | some (width_mm, depth_mm) =>
    (match m.width_pixels with
     | Option.none => []
     | some wp =>
       [{ label := label, component_type := "timber", pixel_dimension := wp,
          expected_mm := width_mm, confidence := conf, location := loc,
          measurement_axis := "horizontal" }]) ++
    (match m.height_pixels with
     | Option.none => []
     | some hp =>
       [{ label := label, component_type := "timber", pixel_dimension := hp,
          expected_mm := depth_mm, confidence := conf, location := loc,
          measurement_axis := "vertical" }])

/-- First spacing value whose key occurs in the label (dict iteration in
insertion order with `break` on the first hit). -/
def findSpacing (label : String) : List (String × ℚ) → Option ℚ
  | [] => Option.none
  | (k, v) :: rest => if containsSub label k then some v else findSpacing label rest

/-- Spacing branch of `_extract_components` for one element. -/
def spacingEvidence (label : String) (conf : ℚ) (m : Measurements)
    (loc : Option (ℚ × ℚ)) : List ComponentDetection :=
  if containsSub label "CTS" || containsSub label "@" then
    match findSpacing label STANDARD_SPACINGS, m.spacing_pixels with
    | some spacing_mm, some sp =>
      [{ label := label, component_type := "spacing", pixel_dimension := sp,
         expected_mm := spacing_mm, confidence := conf, location := loc }]
    | _, _ => []
  else []

/-- All evidence extracted from one element (the three branch `if`s of the
loop body run in sequence on the same element). -/
def extractOne (e : DetectedElement) : List ComponentDetection :=
  if e.measurements.isEmpty then []
  else
    steelEvidence (pyUpper e.label) (e.confidence.getD 0.5) e.measurements e.location ++
    timberEvidence (pyUpper e.label) (e.confidence.getD 0.5) e.measurements e.location ++
    spacingEvidence (pyUpper e.label) (e.confidence.getD 0.5) e.measurements e.location

/-- The accumulating loop of `_extract_components` (`components.append`). -/
def extractLoop : List DetectedElement → List ComponentDetection → List ComponentDetection
  | [], acc => acc
  | e :: rest, acc => extractLoop rest (acc ++ extractOne e)

/-- `_extract_components`. -/
def extract_components (detected_elements : List DetectedElement) : List ComponentDetection :=
  extractLoop detected_elements []

/-! ### The three estimators -/

/-- `statistics.mean`. -/
def mean (l : List ℚ) : ℚ := l.sum / (l.length : ℚ)

/-- `statistics.variance`: unbiased sample variance (denominator `n - 1`).
The estimators only call it on lists of length at least 2. -/
def sampleVariance (l : List ℚ) : ℚ :=
  (l.map (fun x => (x - mean l) ^ 2)).sum / ((l.length : ℚ) - 1)

/-- The `for component in ...: if ratio > 0: ratios.append(ratio)` loop
shared verbatim by the three estimators. -/
def positiveRatios : List ComponentDetection → List ℚ
  | [] => []
  | c :: rest =>
    if 0 < c.pixels_per_mm then c.pixels_per_mm :: positiveRatios rest
    else positiveRatios rest

/-- `_calibrate_from_steel_sections` (abstains by returning `none`). -/
def calibrateFromSteel (components : List ComponentDetection) : Option CalibrationCandidate :=
  match components.filter (fun c => c.component_type = "steel") with
  | [] => Option.none
  | sc :: scs =>
    match positiveRatios (sc :: scs) with
    | [] => Option.none
    | r :: rs =>
      some { method := .STEEL_SECTION
             components := sc :: scs
             pixels_per_mm := mean (r :: rs)
             confidence :=
               (0.95 : ℚ) *
                 (1 - min ((if 1 < (r :: rs).length then sampleVariance (r :: rs) else 0) * 10) 0.5)
             variance := if 1 < (r :: rs).length then sampleVariance (r :: rs) else 0 }

/-- `_calibrate_from_timber_sizes`. -/
def calibrateFromTimber (components : List ComponentDetection) : Option CalibrationCandidate :=
  match components.filter (fun c => c.component_type = "timber") with
  | [] => Option.none
  | tc :: tcs =>
    match positiveRatios (tc :: tcs) with
    | [] => Option.none
    | r :: rs =>
      some { method := .TIMBER_SIZE
             components := tc :: tcs
             pixels_per_mm := mean (r :: rs)
             confidence :=
               (0.90 : ℚ) *
                 (1 - min ((if 1 < (r :: rs).length then sampleVariance (r :: rs) else 0) * 10) 0.5)
             variance := if 1 < (r :: rs).length then sampleVariance (r :: rs) else 0 }

/-- Distinct `expected_mm` values in first-occurrence order (the keys of
the `spacing_groups` dict, which iterates in insertion order). -/
def spacingKeys : List ComponentDetection → List ℚ
  | [] => []
  | c :: rest => c.expected_mm :: (spacingKeys rest).filter (fun k => k ≠ c.expected_mm)

/-- The groups of `spacing_groups.values()`, in key insertion order. -/
def spacingGroups (cs : List ComponentDetection) : List (List ComponentDetection) :=
  (spacingKeys cs).map (fun k => cs.filter (fun c => c.expected_mm = k))

/-- `max(..., key=len)` keeps the first group attaining the maximal
length. -/
def largestAux (best : List ComponentDetection) :
    List (List ComponentDetection) → List ComponentDetection
  | [] => best
  | g :: gs => if best.length < g.length then largestAux g gs else largestAux best gs

/-- `max(spacing_groups.values(), key=len)`. -/
def pickLargestGroup (cs : List ComponentDetection) : List ComponentDetection :=
  match spacingGroups cs with
  | [] => []
  | g :: gs => largestAux g gs

/-- The confidence of the spacing candidate: base `0.85` with the variance
penalty, then the consistency boost `min(confidence * 1.1, 0.95)` when
there are at least 3 ratios with variance below `0.01`. -/
def spacingConfidence (n : ℕ) (variance : ℚ) : ℚ :=
  if 3 ≤ n ∧ variance < 0.01 then
    min ((0.85 : ℚ) * (1 - min (variance * 10) 0.5) * 1.1) 0.95
  else (0.85 : ℚ) * (1 - min (variance * 10) 0.5)

/-- `_calibrate_from_spacing_patterns`. -/
def calibrateFromSpacing (components : List ComponentDetection) : Option CalibrationCandidate :=
  if (components.filter (fun c => c.component_type = "spacing")).length < 2 then Option.none
  else
    match positiveRatios (pickLargestGroup (components.filter (fun c => c.component_type = "spacing"))) with
    | [] => Option.none
    | r :: rs =>
      some { method := .SPACING_PATTERN
             components := pickLargestGroup (components.filter (fun c => c.component_type = "spacing"))
             pixels_per_mm := mean (r :: rs)
             confidence :=
               spacingConfidence (r :: rs).length
                 (if 1 < (r :: rs).length then sampleVariance (r :: rs) else 0)
             variance := if 1 < (r :: rs).length then sampleVariance (r :: rs) else 0 }

/-! ### Selection and result construction (`auto_calibrate`) -/

/-- The non-abstaining candidates, in the fixed evaluation order
`self.calibration_methods = [steel, timber, spacing]`. -/
def candidateList (components : List ComponentDetection) : List CalibrationCandidate :=
  (calibrateFromSteel components).toList ++ (calibrateFromTimber components).toList ++
    (calibrateFromSpacing components).toList

/-- The `candidate.confidence >= self.min_confidence` filter applied as
candidates are collected. -/
def keepConfident (min_confidence : ℚ) :
    List CalibrationCandidate → List CalibrationCandidate
  | [] => []
  | c :: rest =>
    if min_confidence ≤ c.confidence then c :: keepConfident min_confidence rest
    else keepConfident min_confidence rest

/-- Tail of `_select_best_calibration`: Python's `sorted` is stable, so
`sorted(candidates, key=reliability_score, reverse=True)[0]` is the first
candidate attaining the maximal reliability score; the fold keeps the
current best and only replaces it on a strictly larger score. -/
def selectBestAux (best : CalibrationCandidate) :
    List CalibrationCandidate → CalibrationCandidate
  | [] => best
  | c :: rest =>
    if best.reliability_score < c.reliability_score then selectBestAux c rest
    else selectBestAux best rest

/-- `_select_best_calibration` on a possibly-empty candidate list. -/
def selectBest : List CalibrationCandidate → Option CalibrationCandidate
  | [] => Option.none
  | c :: rest => some (selectBestAux c rest)

/-- Deduplication of contributor labels.  The source uses
`list(set(...))`, whose order is unspecified; first-occurrence order is
fixed here (no claim depends on the order). -/
def dedupLabels : List String → List String
  | [] => []
  | s :: rest => s :: (dedupLabels rest).filter (fun t => t ≠ s)

/-- `_create_calibration_result`. -/
def create_calibration_result (candidate : CalibrationCandidate) : CalibrationResult :=
  mkCalibrationResult candidate.method candidate.pixels_per_mm
    (1 / candidate.pixels_per_mm) candidate.confidence
    (dedupLabels (candidate.components.map ComponentDetection.label))
    (.auto candidate.method.value candidate.components.length candidate.variance
      ((candidate.components.take 5).map
        (fun c => ⟨c.label, c.pixel_dimension, c.expected_mm, c.pixels_per_mm⟩)))
    "auto_calibrated"

/-- Selection step of `auto_calibrate` on an already-collected candidate
list. -/
def autoCalibrateSelect (min_confidence : ℚ) (candidates : List CalibrationCandidate) :
    CalibrationResult :=
  match selectBest (keepConfident min_confidence candidates) with
  | some best => create_calibration_result best
  | Option.none => CalibrationResult.none

/-- `AutoCalibrator.__init__` default for `min_confidence`. -/
def defaultMinConfidence : ℚ := 0.7

/-- `AutoCalibrator.auto_calibrate` (the `image_analysis` argument is
unused by the source; the estimators are total here, so the
`try/except` around each estimator call cannot fire). -/
def auto_calibrate (min_confidence : ℚ) (detected_elements : List DetectedElement) :
    CalibrationResult :=
  autoCalibrateSelect min_confidence (candidateList (extract_components detected_elements))

/-! ### `validate_calibration` -/

/-- One test measurement dict; each key may be missing. -/
structure TestMeasurement where
  pixels : Option ℚ := Option.none
  expected_mm : Option ℚ := Option.none
deriving DecidableEq

/-- One entry of the `errors` list. -/
structure MeasurementError where
  expected_mm : ℚ
  calculated_mm : ℚ
  error_mm : ℚ
  error_percent : ℚ
deriving DecidableEq

/-- The dict returned by `validate_calibration`.  For the empty test set
only `valid` and `message` are present; the metric fields are `none`
then. -/
structure ValidationReport where
  valid : Bool
  average_error_percent : Option ℚ
  max_error_percent : Option ℚ
  errors : List MeasurementError
  message : String
deriving DecidableEq

/-- The loop body of `validate_calibration` for one measurement.
`measurement["pixels"]` and `measurement["expected_mm"]` raise `KeyError`
when the key is missing, and `error_mm / expected_mm` raises
`ZeroDivisionError` when `expected_mm == 0`; raising is modelled as
`Except.error`. -/
def measureError (calibration : CalibrationResult) (m : TestMeasurement) :
    Except String MeasurementError :=
  match m.pixels with
  | Option.none => Except.error "KeyError: pixels"
  | some px =>
    match m.expected_mm with
    | Option.none => Except.error "KeyError: expected_mm"
    | some expected =>
      if expected = 0 then Except.error "ZeroDivisionError: error_mm / expected_mm"
      else
        Except.ok
          { expected_mm := expected
            calculated_mm := calibration.convert_pixels_to_mm px
            error_mm := |calibration.convert_pixels_to_mm px - expected|
            error_percent := |calibration.convert_pixels_to_mm px - expected| / expected * 100 }

/-- Python `max` over a nonempty list (the `[]` case is unreachable in
`validate_calibration`). -/
def maxList : List ℚ → ℚ
  | [] => 0
  | x :: xs => xs.foldl max x

/-- `AutoCalibrator.validate_calibration`. -/
def validate_calibration (calibration : CalibrationResult)
    (test_measurements : List TestMeasurement) : Except String ValidationReport :=
  match test_measurements with
  | [] =>
    Except.ok
      { valid := true, average_error_percent := Option.none,
        max_error_percent := Option.none, errors := [],
        message := "No test measurements provided" }
  | _ :: _ => do
    let errors ← test_measurements.mapM (measureError calibration)
    let avg := mean (errors.map MeasurementError.error_percent)
    let maxE := maxList (errors.map MeasurementError.error_percent)
    let is_valid := avg < 5 ∧ maxE < 10
    pure
      { valid := decide is_valid, average_error_percent := some avg,
        max_error_percent := some maxE, errors := errors,
        message :=
          if is_valid then "Calibration validated"
          else "Calibration accuracy outside acceptable range" }

/-! ### Claim-side definitions

The next definitions follow the words of the specification claims (not
the source); they exist to be compared with the source-derived functions
above. -/

/-- Rank of an evidence record in the source's per-element emission order:
steel depth, steel flange, timber width, timber height, spacing. -/
def srcRank (c : ComponentDetection) : ℕ :=
  if c.component_type = "steel" then
    (if c.measurement_axis = "vertical" then 0 else 1)
  else if c.component_type = "timber" then
    (if c.measurement_axis = "horizontal" then 2 else 3)
  else 4

/-- Rank of an evidence record in the per-element order stated by claim
C3: evidence derived from `height_pixels` (vertical axis) first, then
from `width_pixels` (horizontal axis), then from `spacing_pixels`. -/
def claimRank (c : ComponentDetection) : ℕ :=
  if c.component_type = "spacing" then 2
  else if c.measurement_axis = "vertical" then 0
  else 1

/-- Claim C9's reading of `parse_timber_size`: the whole trimmed input is
digits, optional spaces, `x` or `X`, optional spaces, digits — nothing
after — and the returned pair is the numeric value of the two digit
groups. -/
def isFullTimberPattern (s : String) (w d : ℚ) : Prop :=
  ∃ (d1 sp1 : List Char) (c : Char) (sp2 d2 : List Char),
    (pyStrip s).data = d1 ++ sp1 ++ c :: (sp2 ++ d2) ∧
    d1 ≠ [] ∧ d2 ≠ [] ∧
    (∀ ch ∈ d1, ch.isDigit) ∧ (∀ ch ∈ d2, ch.isDigit) ∧
    (∀ ch ∈ sp1, pyIsSpace ch) ∧ (∀ ch ∈ sp2, pyIsSpace ch) ∧
    (c = 'x' ∨ c = 'X') ∧
    w = (digitsToNat d1 : ℚ) ∧ d = (digitsToNat d2 : ℚ)

/-- The amended reading of `parse_timber_size`: the trimmed input starts
with the digits-`x`-digits pattern (with maximal digit groups: the
remainder must not begin with a digit) and anything may follow. -/
def isPrefixTimberPattern (s : String) (w d : ℚ) : Prop :=
  ∃ (d1 sp1 : List Char) (c : Char) (sp2 d2 rest : List Char),
    (pyStrip s).data = d1 ++ sp1 ++ c :: (sp2 ++ d2 ++ rest) ∧
    d1 ≠ [] ∧ d2 ≠ [] ∧
    (∀ ch ∈ d1, ch.isDigit) ∧ (∀ ch ∈ d2, ch.isDigit) ∧
    (∀ ch ∈ sp1, pyIsSpace ch) ∧ (∀ ch ∈ sp2, pyIsSpace ch) ∧
    (c = 'x' ∨ c = 'X') ∧
    (∀ ch, rest.head? = some ch → ch.isDigit = false) ∧
    w = (digitsToNat d1 : ℚ) ∧ d = (digitsToNat d2 : ℚ)

/-! ## Helper lemmas -/

theorem extractLoop_eq (elems : List DetectedElement) :
    ∀ acc, extractLoop elems acc = acc ++ elems.flatMap extractOne := by
  induction elems with
  | nil => intro acc; simp [extractLoop]
  | cons e rest ih =>
    intro acc
    rw [extractLoop, ih]
    simp

theorem keepConfident_mem (m : ℚ) (cs : List CalibrationCandidate)
    (c : CalibrationCandidate) :
    c ∈ keepConfident m cs ↔ (c ∈ cs ∧ m ≤ c.confidence) := by
  induction cs with
  | nil => simp [keepConfident]
  | cons a rest ih =>
    rw [keepConfident]
    split_ifs with ha
    · constructor
      · intro hmem
        rcases List.mem_cons.mp hmem with rfl | hc
        · exact ⟨List.mem_cons_self _ _, ha⟩
        · exact ⟨List.mem_cons_of_mem _ (ih.mp hc).1, (ih.mp hc).2⟩
      · rintro ⟨hc, hm⟩
        rcases List.mem_cons.mp hc with rfl | hc
        · exact List.mem_cons_self _ _
        · exact List.mem_cons_of_mem _ (ih.mpr ⟨hc, hm⟩)
    · constructor
      · intro hc
        exact ⟨List.mem_cons_of_mem _ (ih.mp hc).1, (ih.mp hc).2⟩
      · rintro ⟨hc, hm⟩
        rcases List.mem_cons.mp hc with rfl | hc
        · exact absurd hm ha
        · exact ih.mpr ⟨hc, hm⟩

theorem selectBestAux_max (l : List CalibrationCandidate) :
    ∀ best, best.reliability_score ≤ (selectBestAux best l).reliability_score ∧
      ∀ c ∈ l, c.reliability_score ≤ (selectBestAux best l).reliability_score := by
  induction l with
  | nil => intro best; simp [selectBestAux]
  | cons a rest ih =>
    intro best
    rw [selectBestAux]
    split_ifs with ha
    · refine ⟨le_of_lt (lt_of_lt_of_le ha (ih a).1), ?_⟩
      intro c hc
      rcases List.mem_cons.mp hc with rfl | hc
      · exact (ih c).1
      · exact (ih a).2 c hc
    · refine ⟨(ih best).1, ?_⟩
      intro c hc
      rcases List.mem_cons.mp hc with rfl | hc
      · exact le_trans (not_lt.mp ha) (ih best).1
      · exact (ih best).2 c hc

theorem selectBestAux_first (l : List CalibrationCandidate) :
    ∀ best, ∃ l1 l2, best :: l = l1 ++ (selectBestAux best l) :: l2 ∧
      ∀ c ∈ l1, c.reliability_score < (selectBestAux best l).reliability_score := by
  induction l with
  | nil => intro best; exact ⟨[], [], rfl, by simp⟩
  | cons a rest ih =>
    intro best
    rw [selectBestAux]
    split_ifs with ha
    · obtain ⟨l1, l2, hsplit, hlt⟩ := ih a
      refine ⟨best :: l1, l2, by rw [List.cons_append, ← hsplit], ?_⟩
      intro c hc
      rcases List.mem_cons.mp hc with rfl | hc
      · exact lt_of_lt_of_le ha (selectBestAux_max rest a).1
      · exact hlt c hc
    · obtain ⟨l1, l2, hsplit, hlt⟩ := ih best
      cases l1 with
      | nil =>
        simp only [List.nil_append] at hsplit
        injection hsplit with hhead htail
        refine ⟨[], a :: rest, ?_, by simp⟩
        rw [List.nil_append, ← hhead]
      | cons x l1t =>
        have hx : x = best := by
          have := congrArg List.head? hsplit
          simpa using this.symm
        subst hx
        have htail : rest = l1t ++ (selectBestAux x rest) :: l2 := by
          have := congrArg List.tail hsplit
          simpa using this
        refine ⟨x :: a :: l1t, l2, ?_, ?_⟩
        · conv_lhs => rw [htail]
          simp
        intro c hc
        rcases List.mem_cons.mp hc with rfl | hc
        · exact hlt c (List.mem_cons_self _ _)
        rcases List.mem_cons.mp hc with rfl | hc
        · exact lt_of_le_of_lt (not_lt.mp ha) (hlt x (List.mem_cons_self _ _))
        · exact hlt c (List.mem_cons_of_mem _ hc)

theorem selectBest_first (cs : List CalibrationCandidate) (b : CalibrationCandidate)
    (h : selectBest cs = some b) :
    ∃ l1 l2, cs = l1 ++ b :: l2 ∧
      ∀ c ∈ l1, c.reliability_score < b.reliability_score := by
  cases cs with
  | nil => simp [selectBest] at h
  | cons a rest =>
    rw [selectBest, Option.some_inj] at h
    subst h
    exact selectBestAux_first rest a

theorem selectBest_mem (cs : List CalibrationCandidate) (b : CalibrationCandidate)
    (h : selectBest cs = some b) : b ∈ cs := by
  obtain ⟨l1, l2, hsplit, -⟩ := selectBest_first cs b h
  rw [hsplit]
  exact List.mem_append_right _ (List.mem_cons_self _ _)

theorem selectBest_max (cs : List CalibrationCandidate) (b : CalibrationCandidate)
    (h : selectBest cs = some b) :
    ∀ c ∈ cs, c.reliability_score ≤ b.reliability_score := by
  cases cs with
  | nil => simp [selectBest] at h
  | cons a rest =>
    rw [selectBest, Option.some_inj] at h
    subst h
    intro c hc
    rcases List.mem_cons.mp hc with rfl | hc
    · exact (selectBestAux_max rest c).1
    · exact (selectBestAux_max rest a).2 c hc

theorem positiveRatios_pos (l : List ComponentDetection) :
    ∀ x ∈ positiveRatios l, 0 < x := by
  induction l with
  | nil => simp [positiveRatios]
  | cons c rest ih =>
    rw [positiveRatios]
    split_ifs with hc
    · intro x hx
      rcases List.mem_cons.mp hx with rfl | hx
      · exact hc
      · exact ih x hx
    · exact ih

theorem mean_pos (l : List ℚ) (hne : l ≠ []) (hpos : ∀ x ∈ l, 0 < x) : 0 < mean l := by
  have hsum : 0 < l.sum := List.sum_pos l hpos hne
  have hlen : 0 < (l.length : ℚ) := by
    have : 0 < l.length := List.length_pos.mpr hne
    exact_mod_cast this
  exact div_pos hsum hlen

theorem calibrateFromSteel_ppm_pos (comps : List ComponentDetection)
    (cand : CalibrationCandidate) (h : calibrateFromSteel comps = some cand) :
    0 < cand.pixels_per_mm := by
  rw [calibrateFromSteel] at h
  split at h
  · exact absurd h (by simp)
  · split at h
    · exact absurd h (by simp)
    · rename_i sc scs hfilter r rs hratios
      rw [Option.some_inj] at h
      subst h
      exact mean_pos _ (by simp) (by rw [← hratios]; exact positiveRatios_pos _)

theorem calibrateFromTimber_ppm_pos (comps : List ComponentDetection)
    (cand : CalibrationCandidate) (h : calibrateFromTimber comps = some cand) :
    0 < cand.pixels_per_mm := by
  rw [calibrateFromTimber] at h
  split at h
  · exact absurd h (by simp)
  · split at h
    · exact absurd h (by simp)
    · rename_i tc tcs hfilter r rs hratios
      rw [Option.some_inj] at h
      subst h
      exact mean_pos _ (by simp) (by rw [← hratios]; exact positiveRatios_pos _)

theorem calibrateFromSpacing_ppm_pos (comps : List ComponentDetection)
    (cand : CalibrationCandidate) (h : calibrateFromSpacing comps = some cand) :
    0 < cand.pixels_per_mm := by
  rw [calibrateFromSpacing] at h
  split at h
  · exact absurd h (by simp)
  · split at h
    · exact absurd h (by simp)
    · rename_i r rs hratios
      rw [Option.some_inj] at h
      subst h
      exact mean_pos _ (by simp) (by rw [← hratios]; exact positiveRatios_pos _)

theorem candidateList_ppm_pos (comps : List ComponentDetection)
    (b : CalibrationCandidate) (h : b ∈ candidateList comps) : 0 < b.pixels_per_mm := by
  rw [candidateList] at h
  rcases List.mem_append.mp h with h | h
  rcases List.mem_append.mp h with h | h
  · exact calibrateFromSteel_ppm_pos comps b (by simpa using h)
  · exact calibrateFromTimber_ppm_pos comps b (by simpa using h)
  · exact calibrateFromSpacing_ppm_pos comps b (by simpa using h)

/-! ## Claim theorems -/

/-- C7: for every `ComponentDetection`, the derived ratio `pixels_per_mm`
equals `pixel_dimension / expected_mm` exactly when `expected_mm > 0`, and
equals `0` when `expected_mm ≤ 0` (never an undefined value or a division
error: the guard is explicit in the source). -/
theorem C7_pixels_per_mm_guarded (c : ComponentDetection) :
    (0 < c.expected_mm → c.pixels_per_mm = c.pixel_dimension / c.expected_mm) ∧
    (c.expected_mm ≤ 0 → c.pixels_per_mm = 0) := by
  refine ⟨fun h => ?_, fun h => ?_⟩
  · rw [ComponentDetection.pixels_per_mm, if_pos h]
  · rw [ComponentDetection.pixels_per_mm, if_neg (not_lt.mpr h)]

/-- Witness for C7 at two concrete detections, one with `expected_mm = 200`
and one with `expected_mm = 0`. -/
theorem C7_pixels_per_mm_guarded_witness :
    ComponentDetection.pixels_per_mm
        ⟨"200PFC", "steel", 85, 200, 0.95, Option.none, "vertical"⟩ = 85 / 200 ∧
    ComponentDetection.pixels_per_mm
        ⟨"BAD", "steel", 85, 0, 0.95, Option.none, "vertical"⟩ = 0 :=
  ⟨(C7_pixels_per_mm_guarded _).1 (by norm_num),
   (C7_pixels_per_mm_guarded _).2 (by norm_num)⟩

/-- C8: for every `CalibrationResult` built by the constructor (which runs
`__post_init__`, so `mm_per_pixel` is the reciprocal of `pixels_per_mm`)
with `pixels_per_mm > 0`, converting `x` pixels to millimeters and back to
pixels returns `x` exactly (the arithmetic is exact over `ℚ`). -/
theorem C8_round_trip (method : CalibrationMethod) (ppm mpp conf : ℚ)
    (refs : List String) (details : CalibrationDetails) (status : String)
    (h : 0 < ppm) (x : ℚ) :
    (mkCalibrationResult method ppm mpp conf refs details status).convert_mm_to_pixels
      ((mkCalibrationResult method ppm mpp conf refs details status).convert_pixels_to_mm x) =
      x := by
  simp only [mkCalibrationResult, CalibrationResult.convert_pixels_to_mm,
    CalibrationResult.convert_mm_to_pixels, if_pos h]
  field_simp

/-- Witness for C8 at the Scenario-A ratio `17/40` px/mm and `x = 100`. -/
theorem C8_round_trip_witness :
    (mkCalibrationResult .STEEL_SECTION (17 / 40) 0 0.95 []
        (.failure "") "auto_calibrated").convert_mm_to_pixels
      ((mkCalibrationResult .STEEL_SECTION (17 / 40) 0 0.95 []
        (.failure "") "auto_calibrated").convert_pixels_to_mm 100) = 100 :=
  C8_round_trip .STEEL_SECTION (17 / 40) 0 0.95 [] (.failure "") "auto_calibrated"
    (by norm_num) 100

/-- C5: whenever extraction yields no evidence at all (in particular for
the empty element list), `auto_calibrate` returns the failure result:
`status = "failed"`, `pixels_per_mm = 0`, `mm_per_pixel = 0` — it does not
raise. -/
theorem C5_no_evidence_failed (elems : List DetectedElement) (minConf : ℚ)
    (h : extract_components elems = []) :
    auto_calibrate minConf elems = CalibrationResult.none ∧
    (auto_calibrate minConf elems).status = "failed" ∧
    (auto_calibrate minConf elems).pixels_per_mm = 0 ∧
    (auto_calibrate minConf elems).mm_per_pixel = 0 := by
  have hres : auto_calibrate minConf elems = CalibrationResult.none := by
    rw [auto_calibrate, h]
    rfl
  refine ⟨hres, ?_, ?_, ?_⟩ <;> rw [hres]
  · rfl
  · rfl
  · norm_num [CalibrationResult.none, mkCalibrationResult]

/-- Witness for C5 at the empty element list. -/
theorem C5_no_evidence_failed_witness :
    extract_components [] = [] ∧
    (auto_calibrate defaultMinConfidence []).status = "failed" ∧
    (auto_calibrate defaultMinConfidence []).pixels_per_mm = 0 ∧
    (auto_calibrate defaultMinConfidence []).mm_per_pixel = 0 :=
  ⟨rfl, (C5_no_evidence_failed [] defaultMinConfidence rfl).2⟩

/-- C2: on any list of non-abstaining candidates (in estimator evaluation
order), the selector keeps exactly the candidates whose confidence is at
least `min_confidence` (default `0.70`; equality is kept); if none remain
the calibration fails; otherwise the selected candidate is a kept
candidate of maximal `reliability_score`, and it is the *first* kept
candidate attaining that maximum, i.e. the one from the earliest
estimator, making selection deterministic. -/
theorem C2_selector (cs : List CalibrationCandidate) (minConf : ℚ) :
    defaultMinConfidence = 0.7 ∧
    (∀ c, c ∈ keepConfident minConf cs ↔ (c ∈ cs ∧ minConf ≤ c.confidence)) ∧
    (keepConfident minConf cs = [] →
      autoCalibrateSelect minConf cs = CalibrationResult.none) ∧
    (∀ b, selectBest (keepConfident minConf cs) = some b →
      autoCalibrateSelect minConf cs = create_calibration_result b ∧
      b ∈ keepConfident minConf cs ∧
      (∀ c ∈ keepConfident minConf cs, c.reliability_score ≤ b.reliability_score) ∧
      (∃ l1 l2, keepConfident minConf cs = l1 ++ b :: l2 ∧
        ∀ c ∈ l1, c.reliability_score < b.reliability_score)) := by
  refine ⟨rfl, fun c => keepConfident_mem minConf cs c, fun hempty => ?_, fun b hb => ?_⟩
  · rw [autoCalibrateSelect, hempty]
    rfl
  · refine ⟨?_, selectBest_mem _ b hb, selectBest_max _ b hb, selectBest_first _ b hb⟩
    rw [autoCalibrateSelect, hb]

/-- Witness for C2 on a concrete two-candidate list with equal reliability
scores: the first (steel) candidate is selected. -/
theorem C2_selector_witness :
    (selectBest (keepConfident defaultMinConfidence
        [⟨.STEEL_SECTION, [⟨"200PFC", "steel", 85, 200, 1, Option.none, "vertical"⟩],
            17 / 40, 0.95, 0⟩,
         ⟨.TIMBER_SIZE, [⟨"200X45", "timber", 84, 200, 1, Option.none, "horizontal"⟩],
            21 / 50, 0.90, 0⟩]) =
      some ⟨.STEEL_SECTION, [⟨"200PFC", "steel", 85, 200, 1, Option.none, "vertical"⟩],
            17 / 40, 0.95, 0⟩) ∧
    autoCalibrateSelect defaultMinConfidence
        [⟨.STEEL_SECTION, [⟨"200PFC", "steel", 85, 200, 1, Option.none, "vertical"⟩],
            17 / 40, 0.95, 0⟩,
         ⟨.TIMBER_SIZE, [⟨"200X45", "timber", 84, 200, 1, Option.none, "horizontal"⟩],
            21 / 50, 0.90, 0⟩] =
      create_calibration_result
        ⟨.STEEL_SECTION, [⟨"200PFC", "steel", 85, 200, 1, Option.none, "vertical"⟩],
            17 / 40, 0.95, 0⟩ := by
  have hsel : selectBest (keepConfident defaultMinConfidence
      [⟨.STEEL_SECTION, [⟨"200PFC", "steel", 85, 200, 1, Option.none, "vertical"⟩],
          17 / 40, 0.95, 0⟩,
       ⟨.TIMBER_SIZE, [⟨"200X45", "timber", 84, 200, 1, Option.none, "horizontal"⟩],
          21 / 50, 0.90, 0⟩]) =
      some ⟨.STEEL_SECTION, [⟨"200PFC", "steel", 85, 200, 1, Option.none, "vertical"⟩],
          17 / 40, 0.95, 0⟩ := by
    have hkeep : keepConfident defaultMinConfidence
        [⟨.STEEL_SECTION, [⟨"200PFC", "steel", 85, 200, 1, Option.none, "vertical"⟩],
            17 / 40, 0.95, 0⟩,
         ⟨.TIMBER_SIZE, [⟨"200X45", "timber", 84, 200, 1, Option.none, "horizontal"⟩],
            21 / 50, 0.90, 0⟩] =
        [⟨.STEEL_SECTION, [⟨"200PFC", "steel", 85, 200, 1, Option.none, "vertical"⟩],
            17 / 40, 0.95, 0⟩,
         ⟨.TIMBER_SIZE, [⟨"200X45", "timber", 84, 200, 1, Option.none, "horizontal"⟩],
            21 / 50, 0.90, 0⟩] := by
      rw [keepConfident, if_pos (by norm_num [defaultMinConfidence]),
        keepConfident, if_pos (by norm_num [defaultMinConfidence]), keepConfident]
    rw [hkeep, selectBest, selectBestAux, if_neg ?_, selectBestAux]
    simp only [CalibrationCandidate.reliability_score, not_lt]
    norm_num
  exact ⟨hsel, ((C2_selector _ defaultMinConfidence).2.2.2 _ hsel).1⟩

/-- C6: every `CalibrationResult` built by the engine's constructors — the
result of `auto_calibrate` (failure or auto-calibrated), the `from_scale`
fallback (when it does not raise), and the failure constructor — satisfies
`status = "failed"` iff `pixels_per_mm = 0`, `mm_per_pixel = 0` and
`confidence = 0`. -/
theorem C6_failed_iff_zero :
    (∀ (elems : List DetectedElement) (minConf : ℚ),
      ((auto_calibrate minConf elems).status = "failed" ↔
        ((auto_calibrate minConf elems).pixels_per_mm = 0 ∧
         (auto_calibrate minConf elems).mm_per_pixel = 0 ∧
         (auto_calibrate minConf elems).confidence = 0))) ∧
    (∀ (sf conf : ℚ) (r : CalibrationResult),
      CalibrationResult.from_scale sf conf = some r →
      (r.status = "failed" ↔
        (r.pixels_per_mm = 0 ∧ r.mm_per_pixel = 0 ∧ r.confidence = 0))) ∧
    ((CalibrationResult.none).status = "failed" ↔
      ((CalibrationResult.none).pixels_per_mm = 0 ∧
       (CalibrationResult.none).mm_per_pixel = 0 ∧
       (CalibrationResult.none).confidence = 0)) := by
  refine ⟨fun elems minConf => ?_, fun sf conf r h => ?_, ?_⟩
  · rw [auto_calibrate, autoCalibrateSelect]
    cases hsel : selectBest (keepConfident minConf (candidateList (extract_components elems))) with
    | none =>
      constructor
      · intro _
        refine ⟨rfl, ?_, rfl⟩
        norm_num [CalibrationResult.none, mkCalibrationResult]
      · intro _
        rfl
    | some b =>
      have hppm : 0 < b.pixels_per_mm := by
        have hmem := selectBest_mem _ b hsel
        have hmem2 := (keepConfident_mem minConf _ b).mp hmem
        exact candidateList_ppm_pos _ b hmem2.1
      constructor
      · intro hst
        exact absurd hst (by simp [create_calibration_result, mkCalibrationResult])
      · rintro ⟨hz, -, -⟩
        have : b.pixels_per_mm = 0 := by
          simpa [create_calibration_result, mkCalibrationResult] using hz
        exact absurd this (ne_of_gt hppm)
  · rw [CalibrationResult.from_scale] at h
    split at h
    · exact absurd h (by simp)
    · rename_i hnz
      rw [Option.some_inj] at h
      subst h
      have hppm : (4961 : ℚ) / (420 * sf) ≠ 0 := div_ne_zero (by norm_num) hnz
      constructor
      · intro hst
        exact absurd hst (by simp [mkCalibrationResult])
      · rintro ⟨hz, -, -⟩
        have : (4961 : ℚ) / (420 * sf) = 0 := by
          simpa [mkCalibrationResult] using hz
        exact absurd this hppm
  · constructor
    · intro _
      refine ⟨rfl, ?_, rfl⟩
      norm_num [CalibrationResult.none, mkCalibrationResult]
    · intro _
      rfl

/-- Witness for C6: the `auto_calibrate` clause at the empty input and the
`from_scale` clause at scale factor 100 with the default confidence. -/
theorem C6_failed_iff_zero_witness :
    ((auto_calibrate defaultMinConfidence []).status = "failed" ↔
      ((auto_calibrate defaultMinConfidence []).pixels_per_mm = 0 ∧
       (auto_calibrate defaultMinConfidence []).mm_per_pixel = 0 ∧
       (auto_calibrate defaultMinConfidence []).confidence = 0)) ∧
    ((Option.getD (CalibrationResult.from_scale 100 0.8) CalibrationResult.none).status =
        "failed" ↔
      (((Option.getD (CalibrationResult.from_scale 100 0.8)
          CalibrationResult.none)).pixels_per_mm = 0 ∧
       ((Option.getD (CalibrationResult.from_scale 100 0.8)
          CalibrationResult.none)).mm_per_pixel = 0 ∧
       ((Option.getD (CalibrationResult.from_scale 100 0.8)
          CalibrationResult.none)).confidence = 0)) := by
  have hfs : CalibrationResult.from_scale 100 0.8 =
      some (Option.getD (CalibrationResult.from_scale 100 0.8) CalibrationResult.none) := by
    rw [CalibrationResult.from_scale, if_neg (by norm_num)]
    rfl
  exact ⟨C6_failed_iff_zero.1 [] defaultMinConfidence,
    C6_failed_iff_zero.2.1 100 0.8 _ hfs⟩

theorem steelEvidence_mem (label : String) (conf : ℚ) (m : Measurements)
    (loc : Option (ℚ × ℚ)) (ev : ComponentDetection)
    (hev : ev ∈ steelEvidence label conf m loc) :
    (∃ s hp, lookup STEEL_SECTIONS label = some s ∧ m.height_pixels = some hp ∧
      ev = { label := label, component_type := "steel", pixel_dimension := hp,
             expected_mm := s.depth, confidence := conf, location := loc,
             measurement_axis := "vertical" }) ∨
    (∃ s wp, lookup STEEL_SECTIONS label = some s ∧ m.width_pixels = some wp ∧
      ev = { label := label ++ "_flange", component_type := "steel",
             pixel_dimension := wp, expected_mm := s.flange_width,
             confidence := conf * 0.9, location := loc,
             measurement_axis := "horizontal" }) := by
  rw [steelEvidence] at hev
  cases hlk : lookup STEEL_SECTIONS label with
  | none => rw [hlk] at hev; simp at hev
  | some s =>
    rw [hlk] at hev
    rcases List.mem_append.mp hev with h | h
    · cases hh : m.height_pixels with
      | none => rw [hh] at h; simp at h
      | some hp =>
        rw [hh] at h
        simp only [List.mem_singleton] at h
        exact Or.inl ⟨s, hp, rfl, rfl, h⟩
    · cases hw : m.width_pixels with
      | none => rw [hw] at h; simp at h
      | some wp =>
        rw [hw] at h
        split_ifs at h with hfw
        · simp only [List.mem_singleton] at h
          exact Or.inr ⟨s, wp, rfl, rfl, h⟩
        · simp at h

theorem timberEvidence_mem (label : String) (conf : ℚ) (m : Measurements)
    (loc : Option (ℚ × ℚ)) (ev : ComponentDetection)
    (hev : ev ∈ timberEvidence label conf m loc) :
    (∃ w d wp, parseTimberSize label = some (w, d) ∧ m.width_pixels = some wp ∧
      ev = { label := label, component_type := "timber", pixel_dimension := wp,
             expected_mm := w, confidence := conf, location := loc,
             measurement_axis := "horizontal" }) ∨
    (∃ w d hp, parseTimberSize label = some (w, d) ∧ m.height_pixels = some hp ∧
      ev = { label := label, component_type := "timber", pixel_dimension := hp,
             expected_mm := d, confidence := conf, location := loc,
             measurement_axis := "vertical" }) := by
  rw [timberEvidence] at hev
  cases hpt : parseTimberSize label with
  | none => rw [hpt] at hev; simp at hev
  | some wd =>
    obtain ⟨w, d⟩ := wd
    rw [hpt] at hev
    rcases List.mem_append.mp hev with h | h
    · cases hw : m.width_pixels with
      | none => rw [hw] at h; simp at h
      | some wp =>
        rw [hw] at h
        simp only [List.mem_singleton] at h
        exact Or.inl ⟨w, d, wp, rfl, rfl, h⟩
    · cases hh : m.height_pixels with
      | none => rw [hh] at h; simp at h
      | some hp =>
        rw [hh] at h
        simp only [List.mem_singleton] at h
        exact Or.inr ⟨w, d, hp, rfl, rfl, h⟩

theorem spacingEvidence_mem (label : String) (conf : ℚ) (m : Measurements)
    (loc : Option (ℚ × ℚ)) (ev : ComponentDetection)
    (hev : ev ∈ spacingEvidence label conf m loc) :
    ∃ mm sp, findSpacing label STANDARD_SPACINGS = some mm ∧
      m.spacing_pixels = some sp ∧
      ev = { label := label, component_type := "spacing", pixel_dimension := sp,
             expected_mm := mm, confidence := conf, location := loc,
             measurement_axis := "horizontal" } := by
  rw [spacingEvidence] at hev
  split_ifs at hev
  · cases hf : findSpacing label STANDARD_SPACINGS with
    | none => rw [hf] at hev; simp at hev
    | some mm =>
      rw [hf] at hev
      cases hs : m.spacing_pixels with
      | none => rw [hs] at hev; simp at hev
      | some sp =>
        rw [hs] at hev
        simp only [List.mem_singleton] at hev
        exact ⟨mm, sp, rfl, rfl, hev⟩
  · simp at hev

/-- C10: an element with measurements but no `confidence` key is not
rejected: extraction uses `element.get("confidence", 0.5)`, so every
evidence record it emits carries confidence `0.5`, except a steel
flange-width record, which carries `0.5 * 0.9 = 0.45`. -/
theorem C10_default_confidence (e : DetectedElement)
    (hc : e.confidence = Option.none) (hm : e.measurements.isEmpty = false) :
    ∀ ev ∈ extractOne e,
      ev.confidence = 0.5 ∨
      (ev.component_type = "steel" ∧ ev.measurement_axis = "horizontal" ∧
        ev.confidence = 0.45) := by
  intro ev hev
  rw [extractOne, if_neg (by rw [hm]; exact Bool.false_ne_true), hc] at hev
  simp only [Option.getD_none] at hev
  rcases List.mem_append.mp hev with hev | hev
  rcases List.mem_append.mp hev with hev | hev
  · rcases steelEvidence_mem _ _ _ _ ev hev with ⟨s, hp, -, -, rfl⟩ | ⟨s, wp, -, -, rfl⟩
    · exact Or.inl rfl
    · refine Or.inr ⟨rfl, rfl, ?_⟩
      norm_num
  · rcases timberEvidence_mem _ _ _ _ ev hev with ⟨w, d, wp, -, -, rfl⟩ | ⟨w, d, hp, -, -, rfl⟩
    · exact Or.inl rfl
    · exact Or.inl rfl
  · obtain ⟨mm, sp, -, -, rfl⟩ := spacingEvidence_mem _ _ _ _ ev hev
    exact Or.inl rfl

/-- Witness for C10: the flange evidence emitted for a `200PFC` element
with no confidence key carries the steel-flange default `0.5 * 0.9 =
0.45`. -/
theorem C10_default_confidence_witness :
    (⟨"200PFC_flange", "steel", 32, 75, 0.5 * 0.9, Option.none,
        "horizontal"⟩ : ComponentDetection).confidence = 0.5 ∨
    ((⟨"200PFC_flange", "steel", 32, 75, 0.5 * 0.9, Option.none,
        "horizontal"⟩ : ComponentDetection).component_type = "steel" ∧
      (⟨"200PFC_flange", "steel", 32, 75, 0.5 * 0.9, Option.none,
        "horizontal"⟩ : ComponentDetection).measurement_axis = "horizontal" ∧
      (⟨"200PFC_flange", "steel", 32, 75, 0.5 * 0.9, Option.none,
        "horizontal"⟩ : ComponentDetection).confidence = 0.45) :=
  C10_default_confidence
    { label := "200PFC", confidence := Option.none,
      measurements :=
        { height_pixels := some 85, width_pixels := some 32,
          spacing_pixels := Option.none },
      location := Option.none } rfl rfl
    _ (List.Mem.tail _ (List.Mem.head _))

theorem steelEvidence_rank_le (label : String) (conf : ℚ) (m : Measurements)
    (loc : Option (ℚ × ℚ)) (ev : ComponentDetection)
    (hev : ev ∈ steelEvidence label conf m loc) : srcRank ev ≤ 1 := by
  rcases steelEvidence_mem _ _ _ _ ev hev with ⟨s, hp, -, -, rfl⟩ | ⟨s, wp, -, -, rfl⟩ <;>
    simp [srcRank]

theorem timberEvidence_rank (label : String) (conf : ℚ) (m : Measurements)
    (loc : Option (ℚ × ℚ)) (ev : ComponentDetection)
    (hev : ev ∈ timberEvidence label conf m loc) :
    2 ≤ srcRank ev ∧ srcRank ev ≤ 3 := by
  rcases timberEvidence_mem _ _ _ _ ev hev with ⟨w, d, wp, -, -, rfl⟩ | ⟨w, d, hp, -, -, rfl⟩ <;>
    simp [srcRank]

theorem spacingEvidence_rank (label : String) (conf : ℚ) (m : Measurements)
    (loc : Option (ℚ × ℚ)) (ev : ComponentDetection)
    (hev : ev ∈ spacingEvidence label conf m loc) : srcRank ev = 4 := by
  obtain ⟨mm, sp, -, -, rfl⟩ := spacingEvidence_mem _ _ _ _ ev hev
  simp [srcRank]

theorem steelEvidence_pairwise (label : String) (conf : ℚ) (m : Measurements)
    (loc : Option (ℚ × ℚ)) :
    List.Pairwise (fun a b => srcRank a ≤ srcRank b) (steelEvidence label conf m loc) := by
  rw [steelEvidence]
  cases lookup STEEL_SECTIONS label with
  | none => exact List.Pairwise.nil
  | some s =>
    cases m.height_pixels <;> cases m.width_pixels <;>
      by_cases hfw : s.flange_width = 0 <;>
        simp [srcRank, List.pairwise_append, hfw]

theorem timberEvidence_pairwise (label : String) (conf : ℚ) (m : Measurements)
    (loc : Option (ℚ × ℚ)) :
    List.Pairwise (fun a b => srcRank a ≤ srcRank b) (timberEvidence label conf m loc) := by
  rw [timberEvidence]
  cases parseTimberSize label with
  | none => exact List.Pairwise.nil
  | some wd =>
    obtain ⟨w, d⟩ := wd
    cases m.width_pixels <;> cases m.height_pixels <;>
      simp [srcRank, List.pairwise_append]

theorem spacingEvidence_pairwise (label : String) (conf : ℚ) (m : Measurements)
    (loc : Option (ℚ × ℚ)) :
    List.Pairwise (fun a b => srcRank a ≤ srcRank b) (spacingEvidence label conf m loc) := by
  rw [spacingEvidence]
  split_ifs
  · cases findSpacing label STANDARD_SPACINGS <;> cases m.spacing_pixels <;> simp
  · exact List.Pairwise.nil

theorem extractOne_pairwise (e : DetectedElement) :
    List.Pairwise (fun a b => srcRank a ≤ srcRank b) (extractOne e) := by
  rw [extractOne]
  split_ifs
  · exact List.Pairwise.nil
  · rw [List.append_assoc, List.pairwise_append]
    refine ⟨steelEvidence_pairwise _ _ _ _, ?_, ?_⟩
    · rw [List.pairwise_append]
      refine ⟨timberEvidence_pairwise _ _ _ _, spacingEvidence_pairwise _ _ _ _, ?_⟩
      intro a ha b hb
      have h2 := (timberEvidence_rank _ _ _ _ a ha).2
      have h4 := spacingEvidence_rank _ _ _ _ b hb
      omega
    · intro a ha b hb
      have h1 := steelEvidence_rank_le _ _ _ _ a ha
      rcases List.mem_append.mp hb with hb | hb
      · have h2 := (timberEvidence_rank _ _ _ _ b hb).1
        omega
      · have h4 := spacingEvidence_rank _ _ _ _ b hb
        omega

/-- C3 (amended): evidence is emitted in element order (the output is the
concatenation of the per-element lists, in input order), and within one
element the emission order is: steel depth (vertical), steel flange
(horizontal), timber *width* (horizontal), timber *height* (vertical),
spacing — i.e. monotone in `srcRank`.  The claim's "height before width
within an element" holds for the steel branch but is reversed for the
timber branch. -/
theorem C3_extraction_order :
    (∀ elems, extract_components elems = elems.flatMap extractOne) ∧
    (∀ e, List.Pairwise (fun a b => srcRank a ≤ srcRank b) (extractOne e)) :=
  ⟨fun elems => by rw [extract_components, extractLoop_eq]; simp, extractOne_pairwise⟩

/-- Counterexample to C3 as stated: the single timber element `200x45`
with both `width_pixels` and `height_pixels` emits its width-derived
(horizontal) evidence *before* its height-derived (vertical) evidence, so
the claimed height-before-width order (`claimRank` monotone) fails. -/
theorem C3_counterexample :
    ¬ List.Pairwise (fun a b => claimRank a ≤ claimRank b)
      (extract_components
        [{ label := "200x45", confidence := some 0.8,
           measurements :=
             { height_pixels := some 20, width_pixels := some 84,
               spacing_pixels := Option.none },
           location := Option.none }]) := by
  decide

theorem measureError_malformed (r : CalibrationResult) (m : TestMeasurement)
    (h : m.pixels = Option.none ∨ m.expected_mm = Option.none ∨ m.expected_mm = some 0) :
    ∃ e, measureError r m = Except.error e := by
  rw [measureError]
  rcases h with h | h | h
  · rw [h]
    exact ⟨_, rfl⟩
  · cases hp : m.pixels with
    | none => exact ⟨_, rfl⟩
    | some px =>
      rw [h]
      exact ⟨_, rfl⟩
  · cases hp : m.pixels with
    | none => exact ⟨_, rfl⟩
    | some px =>
      rw [h]
      exact ⟨_, rfl⟩

theorem mapM_measureError_error (r : CalibrationResult) :
    ∀ (ms : List TestMeasurement),
      (∃ m ∈ ms, ∃ e, measureError r m = Except.error e) →
      ∃ e, ms.mapM (measureError r) = Except.error e := by
  intro ms
  induction ms with
  | nil => rintro ⟨m, hm, -⟩; simp at hm
  | cons a t ih =>
    rintro ⟨m, hm, e, he⟩
    rw [List.mapM_cons]
    cases hfa : measureError r a with
    | error e2 => exact ⟨e2, rfl⟩
    | ok v =>
      rcases List.mem_cons.mp hm with rfl | hm
      · rw [hfa] at he
        exact absurd he (by simp)
      · obtain ⟨e3, he3⟩ := ih ⟨m, hm, e, he⟩
        exact ⟨e3, by rw [he3]; rfl⟩

/-- C4 (amended): `validate_calibration` on the *empty* test list returns
the trivially-valid response with an explanatory message and no error; but
a malformed entry — missing `pixels` or `expected_mm`, or with
`expected_mm = 0` — makes the call raise (`KeyError` /
`ZeroDivisionError`) instead of returning a trivially-valid response.
(Entries with negative `expected_mm` are processed without raising.) -/
theorem C4_validate_empty_or_malformed (r : CalibrationResult)
    (ms : List TestMeasurement) :
    (ms = [] →
      validate_calibration r ms =
        Except.ok
          { valid := true, average_error_percent := Option.none,
            max_error_percent := Option.none, errors := [],
            message := "No test measurements provided" }) ∧
    ((∃ m ∈ ms, m.pixels = Option.none ∨ m.expected_mm = Option.none ∨
        m.expected_mm = some 0) →
      ∃ e, validate_calibration r ms = Except.error e) := by
  constructor
  · rintro rfl
    rfl
  · rintro ⟨m, hm, hbad⟩
    obtain ⟨e, he⟩ :=
      mapM_measureError_error r ms ⟨m, hm, measureError_malformed r m hbad⟩
    cases ms with
    | nil => simp at hm
    | cons a t =>
      refine ⟨e, ?_⟩
      rw [validate_calibration, he]
      rfl

/-- Witness for C4: the empty list and a one-entry list with
`expected_mm = 0`. -/
theorem C4_validate_witness :
    (validate_calibration CalibrationResult.none [] =
      Except.ok
        { valid := true, average_error_percent := Option.none,
          max_error_percent := Option.none, errors := [],
          message := "No test measurements provided" }) ∧
    (∃ e, validate_calibration CalibrationResult.none
        [{ pixels := some 10, expected_mm := some 0 }] = Except.error e) :=
  ⟨(C4_validate_empty_or_malformed CalibrationResult.none []).1 rfl,
   (C4_validate_empty_or_malformed CalibrationResult.none _).2
     ⟨_, List.mem_singleton.mpr rfl, Or.inr (Or.inr rfl)⟩⟩

/-- Counterexample to C4 as stated: a test list with one entry missing the
`pixels` key makes `validate_calibration` raise `KeyError` — it does not
return a trivially-valid response. -/
theorem C4_counterexample :
    validate_calibration CalibrationResult.none
        [{ pixels := Option.none, expected_mm := some 100 }] =
      Except.error "KeyError: pixels" := rfl

theorem dropWhile_head_false {α : Type} (p : α → Bool) (l : List α) (a : α)
    (h : (l.dropWhile p).head? = some a) : p a = false := by
  have hh := List.head?_dropWhile_not p l
  rw [h] at hh
  exact hh

theorem takeWhile_dropWhile_split {α : Type} (p : α → Bool) :
    ∀ (d r : List α), (∀ a ∈ d, p a = true) →
      (∀ b, r.head? = some b → p b = false) →
      (d ++ r).takeWhile p = d ∧ (d ++ r).dropWhile p = r := by
  intro d
  induction d with
  | nil =>
    intro r _ hr
    cases r with
    | nil => exact ⟨rfl, rfl⟩
    | cons b t =>
      constructor
      · rw [List.nil_append, List.takeWhile_cons_of_neg]
        simp [hr b rfl]
      · rw [List.nil_append, List.dropWhile_cons_of_neg]
        simp [hr b rfl]
  | cons a dt ih =>
    intro r hd hr
    have ha : p a = true := hd a (List.mem_cons_self _ _)
    obtain ⟨iht, ihd⟩ := ih r (fun x hx => hd x (List.mem_cons_of_mem _ hx)) hr
    constructor
    · rw [List.cons_append, List.takeWhile_cons_of_pos ha, iht]
    · rw [List.cons_append, List.dropWhile_cons_of_pos ha, ihd]

theorem pyIsSpace_not_digit (c : Char) (h : pyIsSpace c = true) : c.isDigit = false := by
  rw [pyIsSpace] at h
  simp only [Bool.or_eq_true, decide_eq_true_eq] at h
  rcases h with ((((rfl | rfl) | rfl) | rfl) | rfl) | rfl <;> rfl

theorem isDigit_not_space (c : Char) (h : c.isDigit = true) : pyIsSpace c = false := by
  cases hpy : pyIsSpace c
  · rfl
  · have hd := pyIsSpace_not_digit c hpy
    rw [h] at hd
    exact absurd hd (by simp)

theorem xX_not_digit (c : Char) (h : c = 'x' ∨ c = 'X') : c.isDigit = false := by
  rcases h with rfl | rfl <;> rfl

theorem xX_not_space (c : Char) (h : c = 'x' ∨ c = 'X') : pyIsSpace c = false := by
  rcases h with rfl | rfl <;> rfl

/-- C9 (amended): `parse_timber_size` returns `some (w, d)` exactly when
the trimmed input *starts with* the digits-`x`-digits pattern (digit run,
optional spaces, `x` or `X`, optional spaces, digit run, then anything not
beginning with a digit), with `w` and `d` the values of the two digit
runs.  `re.match` anchors only at the start, so trailing characters such
as `"LVL"` are ignored — the whole trimmed string need not be the
pattern. -/
theorem C9_parseTimberSize_prefix (s : String) (w d : ℚ) :
    parseTimberSize s = some (w, d) ↔ isPrefixTimberPattern s w d := by
  rw [isPrefixTimberPattern]
  constructor
  · intro h
    simp only [parseTimberSize] at h
    generalize hcs : (pyStrip s).data = cs at h ⊢
    split_ifs at h with h1
    cases hdrop : List.dropWhile pyIsSpace (List.dropWhile Char.isDigit cs) with
    | nil =>
      simp only [hdrop] at h
      exact absurd h (by simp)
    | cons c rest2 =>
      simp only [hdrop] at h
      by_cases hcx : c = 'x' ∨ c = 'X'
      · rw [if_pos hcx] at h
        by_cases h2 : List.takeWhile Char.isDigit (List.dropWhile pyIsSpace rest2) = []
        · rw [if_pos h2] at h
          exact absurd h (by simp)
        · rw [if_neg h2, Option.some_inj, Prod.mk.injEq] at h
          obtain ⟨hw, hd⟩ := h
          refine ⟨cs.takeWhile Char.isDigit,
            (cs.dropWhile Char.isDigit).takeWhile pyIsSpace, c,
            rest2.takeWhile pyIsSpace,
            (rest2.dropWhile pyIsSpace).takeWhile Char.isDigit,
            (rest2.dropWhile pyIsSpace).dropWhile Char.isDigit,
            ?_, h1, h2, ?_, ?_, ?_, ?_, hcx, ?_, hw.symm, hd.symm⟩
          · calc cs = cs.takeWhile Char.isDigit ++ cs.dropWhile Char.isDigit :=
                  (List.takeWhile_append_dropWhile _ _).symm
              _ = cs.takeWhile Char.isDigit ++
                    ((cs.dropWhile Char.isDigit).takeWhile pyIsSpace ++ (c :: rest2)) := by
                  refine congrArg (cs.takeWhile Char.isDigit ++ ·) ?_
                  rw [← hdrop]
                  exact (List.takeWhile_append_dropWhile _ _).symm
              _ = cs.takeWhile Char.isDigit ++
                    ((cs.dropWhile Char.isDigit).takeWhile pyIsSpace ++
                      (c :: (rest2.takeWhile pyIsSpace ++ rest2.dropWhile pyIsSpace))) := by
                  refine congrArg
                    (fun t => cs.takeWhile Char.isDigit ++
                      ((cs.dropWhile Char.isDigit).takeWhile pyIsSpace ++ (c :: t))) ?_
                  exact (List.takeWhile_append_dropWhile _ _).symm
              _ = cs.takeWhile Char.isDigit ++
                    ((cs.dropWhile Char.isDigit).takeWhile pyIsSpace ++
                      (c :: (rest2.takeWhile pyIsSpace ++
                        ((rest2.dropWhile pyIsSpace).takeWhile Char.isDigit ++
                          (rest2.dropWhile pyIsSpace).dropWhile Char.isDigit)))) := by
                  refine congrArg
                    (fun t => cs.takeWhile Char.isDigit ++
                      ((cs.dropWhile Char.isDigit).takeWhile pyIsSpace ++
                        (c :: (rest2.takeWhile pyIsSpace ++ t)))) ?_
                  exact (List.takeWhile_append_dropWhile _ _).symm
              _ = cs.takeWhile Char.isDigit ++
                    (cs.dropWhile Char.isDigit).takeWhile pyIsSpace ++
                    c :: (rest2.takeWhile pyIsSpace ++
                      (rest2.dropWhile pyIsSpace).takeWhile Char.isDigit ++
                      (rest2.dropWhile pyIsSpace).dropWhile Char.isDigit) := by
                  simp [List.append_assoc]
          · exact fun ch hch => List.mem_takeWhile_imp hch
          · exact fun ch hch => List.mem_takeWhile_imp hch
          · exact fun ch hch => List.mem_takeWhile_imp hch
          · exact fun ch hch => List.mem_takeWhile_imp hch
          · exact fun ch hch => dropWhile_head_false _ _ _ hch
      · rw [if_neg hcx] at h
        exact absurd h (by simp)
  · rintro ⟨d1, sp1, c, sp2, d2, rest, heq, hd1, hd2, hdig1, hdig2, hsp1, hsp2,
      hcx, hrest, hw, hd⟩
    simp only [parseTimberSize]
    generalize hcs : (pyStrip s).data = cs at heq ⊢
    subst heq
    have hsplit1 := takeWhile_dropWhile_split Char.isDigit d1
        (sp1 ++ c :: (sp2 ++ (d2 ++ rest))) (fun a ha => hdig1 a ha) ?side1
    case side1 =>
      intro b hb
      cases sp1 with
      | nil =>
        simp only [List.nil_append, List.head?_cons, Option.some_inj] at hb
        exact hb ▸ xX_not_digit c hcx
      | cons b0 t =>
        simp only [List.cons_append, List.head?_cons, Option.some_inj] at hb
        exact hb ▸ pyIsSpace_not_digit b0 (hsp1 b0 (List.mem_cons_self _ _))
    have hsplit2 := takeWhile_dropWhile_split pyIsSpace sp1 (c :: (sp2 ++ (d2 ++ rest)))
        (fun a ha => hsp1 a ha) ?side2
    case side2 =>
      intro b hb
      simp only [List.head?_cons, Option.some_inj] at hb
      exact hb ▸ xX_not_space c hcx
    have hsplit3 := takeWhile_dropWhile_split pyIsSpace sp2 (d2 ++ rest)
        (fun a ha => hsp2 a ha) ?side3
    case side3 =>
      intro b hb
      cases d2 with
      | nil => exact absurd rfl hd2
      | cons b0 t =>
        simp only [List.cons_append, List.head?_cons, Option.some_inj] at hb
        exact hb ▸ isDigit_not_space b0 (hdig2 b0 (List.mem_cons_self _ _))
    have hsplit4 := takeWhile_dropWhile_split Char.isDigit d2 rest
        (fun a ha => hdig2 a ha) (fun b hb => hrest b hb)
    rw [List.append_assoc d1 sp1, List.append_assoc sp2 d2]
    rw [hsplit1.1, hsplit1.2, if_neg hd1]
    simp only [hsplit2.2]
    rw [if_pos hcx, hsplit3.2, hsplit4.1, if_neg hd2, hw, hd]

theorem getLast?_append_right {α : Type} (l1 l2 : List α) (h : l2 ≠ []) :
    (l1 ++ l2).getLast? = l2.getLast? := by
  rw [List.getLast?_append]
  cases hg : l2.getLast? with
  | none => exact absurd (List.getLast?_eq_none_iff.mp hg) h
  | some y => rfl

theorem getLast?_some_mem {α : Type} (l : List α) (x : α) (h : l.getLast? = some x) :
    x ∈ l := by
  obtain ⟨hh, hx⟩ := List.mem_getLast?_eq_getLast (show x ∈ l.getLast? from h)
  subst hx
  exact List.getLast_mem hh

/-- Counterexample to C9 as stated: `parse_timber_size("200X45LVL")`
returns `(200, 45)` even though the trimmed input is not a pure
digits-`x`-digits pattern (it has the trailing `"LVL"`): `re.match` does
not anchor at the end of the string. -/
theorem C9_counterexample :
    parseTimberSize "200X45LVL" = some (200, 45) ∧
    ¬ isFullTimberPattern "200X45LVL" 200 45 := by
  constructor
  · rfl
  · rintro ⟨d1, sp1, c, sp2, d2, hstr, hd1, hd2, hdig1, hdig2, hsp1, hsp2, hcx, hw, hd⟩
    have hlist : (pyStrip "200X45LVL").data =
        ['2', '0', '0', 'X', '4', '5', 'L', 'V', 'L'] := rfl
    rw [hlist] at hstr
    have hlast : (['2', '0', '0', 'X', '4', '5', 'L', 'V', 'L'] :
        List Char).getLast? = d2.getLast? := by
      rw [hstr, getLast?_append_right _ _ (by simp),
        show c :: (sp2 ++ d2) = [c] ++ (sp2 ++ d2) from rfl,
        getLast?_append_right _ _ (fun hx => hd2 (List.append_eq_nil.mp hx).2),
        getLast?_append_right _ _ hd2]
    have hLmem : ('L' : Char) ∈ d2 := getLast?_some_mem _ _ hlast.symm
    have := hdig2 'L' hLmem
    exact absurd this (by decide)

theorem spacingConfidence_ge (n : ℕ) (v : ℚ) (hv0 : 0 ≤ v) (hv : v < 1 / 100) :
    7 / 10 ≤ spacingConfidence n v := by
  have hm : min (v * 10) 0.5 ≤ v * 10 := min_le_left _ _
  have hm0 : 0 ≤ min (v * 10) 0.5 := le_min (by positivity) (by norm_num)
  rw [spacingConfidence]
  split_ifs with h
  · refine le_min_iff.mpr ⟨?_, by norm_num⟩
    nlinarith
  · nlinarith

theorem reliability_score_single (m : CalibrationMethod) (cd : ComponentDetection)
    (p cf : ℚ) :
    CalibrationCandidate.reliability_score ⟨m, [cd], p, cf, 0⟩ = cd.confidence / 3 := by
  rw [CalibrationCandidate.reliability_score]
  norm_num [min_def, max_def]
  ring

theorem reliability_score_triple (m : CalibrationMethod)
    (d1 d2 d3 : ComponentDetection) (p cf v : ℚ) (hv : 0 ≤ 1 - v * 10) :
    CalibrationCandidate.reliability_score ⟨m, [d1, d2, d3], p, cf, v⟩ =
      (d1.confidence + d2.confidence + d3.confidence) / 3 * (1 - v * 10) := by
  rw [CalibrationCandidate.reliability_score, max_eq_right hv]
  simp only [List.map_cons, List.map_nil, List.sum_cons, List.sum_nil,
    List.length_cons, List.length_nil]
  rw [show min ((((0 + 1 + 1 + 1 : ℕ) : ℚ)) / 3) 1 = 1 by norm_num]
  push_cast
  ring


theorem scenarioB_selects_spacing
    (c1 c2 c3 c4 c5 s1 s2 s3 : ℚ)
    (hc1 : 0.7 ≤ c1) (hc1u : c1 ≤ 1)
    (hc2 : 0.7 ≤ c2) (hc2u : c2 ≤ 1)
    (hc3 : 0.7 ≤ c3) (hc3u : c3 ≤ 1)
    (hc4 : 0.7 ≤ c4) (hc4u : c4 ≤ 1)
    (hc5 : 0.7 ≤ c5) (hc5u : c5 ≤ 1)
    (hs1 : 188 ≤ s1) (hs1u : s1 ≤ 190)
    (hs2 : 188 ≤ s2) (hs2u : s2 ≤ 190)
    (hs3 : 188 ≤ s3) (hs3u : s3 ≤ 190) :
    (auto_calibrate defaultMinConfidence
      [⟨"200PFC", some c1, ⟨some 85, Option.none, Option.none⟩, Option.none⟩,
       ⟨"200x45", some c2, ⟨Option.none, some 84, Option.none⟩, Option.none⟩,
       ⟨"450 CTS", some c3, ⟨Option.none, Option.none, some s1⟩, Option.none⟩,
       ⟨"450 CTS", some c4, ⟨Option.none, Option.none, some s2⟩, Option.none⟩,
       ⟨"450 CTS", some c5, ⟨Option.none, Option.none, some s3⟩, Option.none⟩]).method =
      CalibrationMethod.SPACING_PATTERN := by
  have hex : extract_components
      [⟨"200PFC", some c1, ⟨some 85, Option.none, Option.none⟩, Option.none⟩,
       ⟨"200x45", some c2, ⟨Option.none, some 84, Option.none⟩, Option.none⟩,
       ⟨"450 CTS", some c3, ⟨Option.none, Option.none, some s1⟩, Option.none⟩,
       ⟨"450 CTS", some c4, ⟨Option.none, Option.none, some s2⟩, Option.none⟩,
       ⟨"450 CTS", some c5, ⟨Option.none, Option.none, some s3⟩, Option.none⟩] =
      [⟨"200PFC", "steel", 85, 200, c1, Option.none, "vertical"⟩,
       ⟨"200X45", "timber", 84, 200, c2, Option.none, "horizontal"⟩,
       ⟨"450 CTS", "spacing", s1, 450, c3, Option.none, "horizontal"⟩,
       ⟨"450 CTS", "spacing", s2, 450, c4, Option.none, "horizontal"⟩,
       ⟨"450 CTS", "spacing", s3, 450, c5, Option.none, "horizontal"⟩] := rfl
  have hr1 : (0 : ℚ) < s1 / 450 := div_pos (by linarith) (by norm_num)
  have hr2 : (0 : ℚ) < s2 / 450 := div_pos (by linarith) (by norm_num)
  have hr3 : (0 : ℚ) < s3 / 450 := div_pos (by linarith) (by norm_num)
  have hsteel : calibrateFromSteel
      [⟨"200PFC", "steel", 85, 200, c1, Option.none, "vertical"⟩,
       ⟨"200X45", "timber", 84, 200, c2, Option.none, "horizontal"⟩,
       ⟨"450 CTS", "spacing", s1, 450, c3, Option.none, "horizontal"⟩,
       ⟨"450 CTS", "spacing", s2, 450, c4, Option.none, "horizontal"⟩,
       ⟨"450 CTS", "spacing", s3, 450, c5, Option.none, "horizontal"⟩] =
      some (⟨.STEEL_SECTION, [⟨"200PFC", "steel", 85, 200, c1, Option.none, "vertical"⟩], 17/40, 19/20, 0⟩ : CalibrationCandidate) := by
    norm_num +decide [calibrateFromSteel, positiveRatios, ComponentDetection.pixels_per_mm,
      mean, sampleVariance, List.filter, min_def, max_def]
  have htimber : calibrateFromTimber
      [⟨"200PFC", "steel", 85, 200, c1, Option.none, "vertical"⟩,
       ⟨"200X45", "timber", 84, 200, c2, Option.none, "horizontal"⟩,
       ⟨"450 CTS", "spacing", s1, 450, c3, Option.none, "horizontal"⟩,
       ⟨"450 CTS", "spacing", s2, 450, c4, Option.none, "horizontal"⟩,
       ⟨"450 CTS", "spacing", s3, 450, c5, Option.none, "horizontal"⟩] =
      some (⟨.TIMBER_SIZE, [⟨"200X45", "timber", 84, 200, c2, Option.none, "horizontal"⟩], 21/50, 9/10, 0⟩ : CalibrationCandidate) := by
    norm_num +decide [calibrateFromTimber, positiveRatios, ComponentDetection.pixels_per_mm,
      mean, sampleVariance, List.filter, min_def, max_def]
  have hspc : calibrateFromSpacing
      [⟨"200PFC", "steel", 85, 200, c1, Option.none, "vertical"⟩,
       ⟨"200X45", "timber", 84, 200, c2, Option.none, "horizontal"⟩,
       ⟨"450 CTS", "spacing", s1, 450, c3, Option.none, "horizontal"⟩,
       ⟨"450 CTS", "spacing", s2, 450, c4, Option.none, "horizontal"⟩,
       ⟨"450 CTS", "spacing", s3, 450, c5, Option.none, "horizontal"⟩] =
      some (⟨.SPACING_PATTERN,
        [⟨"450 CTS", "spacing", s1, 450, c3, Option.none, "horizontal"⟩,
         ⟨"450 CTS", "spacing", s2, 450, c4, Option.none, "horizontal"⟩,
         ⟨"450 CTS", "spacing", s3, 450, c5, Option.none, "horizontal"⟩],
        mean [s1 / 450, s2 / 450, s3 / 450],
        spacingConfidence 3 (sampleVariance [s1 / 450, s2 / 450, s3 / 450]),
        sampleVariance [s1 / 450, s2 / 450, s3 / 450]⟩ : CalibrationCandidate) := by
    norm_num +decide [calibrateFromSpacing, pickLargestGroup, spacingGroups, spacingKeys,
      largestAux, positiveRatios, ComponentDetection.pixels_per_mm, List.filter,
      hr1, hr2, hr3]
  have hVeq : sampleVariance [s1 / 450, s2 / 450, s3 / 450] =
      ((s1 - s2) ^ 2 + (s2 - s3) ^ 2 + (s1 - s3) ^ 2) / 1215000 := by
    simp [sampleVariance, mean]
    field_simp
    ring
  have hV0 : 0 ≤ sampleVariance [s1 / 450, s2 / 450, s3 / 450] := by
    rw [hVeq]
    positivity
  have hV01 : sampleVariance [s1 / 450, s2 / 450, s3 / 450] < 1 / 100 := by
    rw [hVeq]
    have e1 : (s1 - s2) ^ 2 ≤ 4 := by nlinarith only [hs1, hs1u, hs2, hs2u]
    have e2 : (s2 - s3) ^ 2 ≤ 4 := by nlinarith only [hs2, hs2u, hs3, hs3u]
    have e3 : (s1 - s3) ^ 2 ≤ 4 := by nlinarith only [hs1, hs1u, hs3, hs3u]
    linarith only [e1, e2, e3]
  have hconfSP : 7 / 10 ≤ spacingConfidence 3 (sampleVariance [s1 / 450, s2 / 450, s3 / 450]) :=
    spacingConfidence_ge 3 _ hV0 hV01
  have hnv : (0 : ℚ) ≤ 1 - (sampleVariance [s1 / 450, s2 / 450, s3 / 450]) * 10 := by linarith only [hV01, hV0]
  have hsum : (21 : ℚ) / 10 ≤ c3 + c4 + c5 := by linarith only [hc3, hc4, hc5]
  have hnv9 : (9 : ℚ) / 10 ≤ 1 - (sampleVariance [s1 / 450, s2 / 450, s3 / 450]) * 10 := by linarith only [hV01]
  have hSgtS : CalibrationCandidate.reliability_score (⟨.STEEL_SECTION, [⟨"200PFC", "steel", 85, 200, c1, Option.none, "vertical"⟩], 17/40, 19/20, 0⟩ : CalibrationCandidate) <
      CalibrationCandidate.reliability_score (⟨.SPACING_PATTERN,
        [⟨"450 CTS", "spacing", s1, 450, c3, Option.none, "horizontal"⟩,
         ⟨"450 CTS", "spacing", s2, 450, c4, Option.none, "horizontal"⟩,
         ⟨"450 CTS", "spacing", s3, 450, c5, Option.none, "horizontal"⟩],
        mean [s1 / 450, s2 / 450, s3 / 450],
        spacingConfidence 3 (sampleVariance [s1 / 450, s2 / 450, s3 / 450]),
        sampleVariance [s1 / 450, s2 / 450, s3 / 450]⟩ : CalibrationCandidate) := by
    rw [reliability_score_single .STEEL_SECTION ⟨"200PFC", "steel", 85, 200, c1, Option.none, "vertical"⟩ (17/40) (19/20),
      reliability_score_triple .SPACING_PATTERN ⟨"450 CTS", "spacing", s1, 450, c3, Option.none, "horizontal"⟩ ⟨"450 CTS", "spacing", s2, 450, c4, Option.none, "horizontal"⟩ ⟨"450 CTS", "spacing", s3, 450, c5, Option.none, "horizontal"⟩
        (mean [s1 / 450, s2 / 450, s3 / 450]) (spacingConfidence 3 (sampleVariance [s1 / 450, s2 / 450, s3 / 450])) (sampleVariance [s1 / 450, s2 / 450, s3 / 450]) hnv]
    show c1 / 3 < (c3 + c4 + c5) / 3 * (1 - (sampleVariance [s1 / 450, s2 / 450, s3 / 450]) * 10)
    nlinarith only [hsum, hnv9, hc1u]
  have hSgtT : CalibrationCandidate.reliability_score (⟨.TIMBER_SIZE, [⟨"200X45", "timber", 84, 200, c2, Option.none, "horizontal"⟩], 21/50, 9/10, 0⟩ : CalibrationCandidate) <
      CalibrationCandidate.reliability_score (⟨.SPACING_PATTERN,
        [⟨"450 CTS", "spacing", s1, 450, c3, Option.none, "horizontal"⟩,
         ⟨"450 CTS", "spacing", s2, 450, c4, Option.none, "horizontal"⟩,
         ⟨"450 CTS", "spacing", s3, 450, c5, Option.none, "horizontal"⟩],
        mean [s1 / 450, s2 / 450, s3 / 450],
        spacingConfidence 3 (sampleVariance [s1 / 450, s2 / 450, s3 / 450]),
        sampleVariance [s1 / 450, s2 / 450, s3 / 450]⟩ : CalibrationCandidate) := by
    rw [reliability_score_single .TIMBER_SIZE ⟨"200X45", "timber", 84, 200, c2, Option.none, "horizontal"⟩ (21/50) (9/10),
      reliability_score_triple .SPACING_PATTERN ⟨"450 CTS", "spacing", s1, 450, c3, Option.none, "horizontal"⟩ ⟨"450 CTS", "spacing", s2, 450, c4, Option.none, "horizontal"⟩ ⟨"450 CTS", "spacing", s3, 450, c5, Option.none, "horizontal"⟩
        (mean [s1 / 450, s2 / 450, s3 / 450]) (spacingConfidence 3 (sampleVariance [s1 / 450, s2 / 450, s3 / 450])) (sampleVariance [s1 / 450, s2 / 450, s3 / 450]) hnv]
    show c2 / 3 < (c3 + c4 + c5) / 3 * (1 - (sampleVariance [s1 / 450, s2 / 450, s3 / 450]) * 10)
    nlinarith only [hsum, hnv9, hc2u]
  have hcl : candidateList
      [⟨"200PFC", "steel", 85, 200, c1, Option.none, "vertical"⟩,
       ⟨"200X45", "timber", 84, 200, c2, Option.none, "horizontal"⟩,
       ⟨"450 CTS", "spacing", s1, 450, c3, Option.none, "horizontal"⟩,
       ⟨"450 CTS", "spacing", s2, 450, c4, Option.none, "horizontal"⟩,
       ⟨"450 CTS", "spacing", s3, 450, c5, Option.none, "horizontal"⟩] = [(⟨.STEEL_SECTION, [⟨"200PFC", "steel", 85, 200, c1, Option.none, "vertical"⟩], 17/40, 19/20, 0⟩ : CalibrationCandidate), (⟨.TIMBER_SIZE, [⟨"200X45", "timber", 84, 200, c2, Option.none, "horizontal"⟩], 21/50, 9/10, 0⟩ : CalibrationCandidate), (⟨.SPACING_PATTERN,
        [⟨"450 CTS", "spacing", s1, 450, c3, Option.none, "horizontal"⟩,
         ⟨"450 CTS", "spacing", s2, 450, c4, Option.none, "horizontal"⟩,
         ⟨"450 CTS", "spacing", s3, 450, c5, Option.none, "horizontal"⟩],
        mean [s1 / 450, s2 / 450, s3 / 450],
        spacingConfidence 3 (sampleVariance [s1 / 450, s2 / 450, s3 / 450]),
        sampleVariance [s1 / 450, s2 / 450, s3 / 450]⟩ : CalibrationCandidate)] := by
    rw [candidateList, hsteel, htimber, hspc]
    rfl
  have hkeep : keepConfident defaultMinConfidence [(⟨.STEEL_SECTION, [⟨"200PFC", "steel", 85, 200, c1, Option.none, "vertical"⟩], 17/40, 19/20, 0⟩ : CalibrationCandidate), (⟨.TIMBER_SIZE, [⟨"200X45", "timber", 84, 200, c2, Option.none, "horizontal"⟩], 21/50, 9/10, 0⟩ : CalibrationCandidate), (⟨.SPACING_PATTERN,
        [⟨"450 CTS", "spacing", s1, 450, c3, Option.none, "horizontal"⟩,
         ⟨"450 CTS", "spacing", s2, 450, c4, Option.none, "horizontal"⟩,
         ⟨"450 CTS", "spacing", s3, 450, c5, Option.none, "horizontal"⟩],
        mean [s1 / 450, s2 / 450, s3 / 450],
        spacingConfidence 3 (sampleVariance [s1 / 450, s2 / 450, s3 / 450]),
        sampleVariance [s1 / 450, s2 / 450, s3 / 450]⟩ : CalibrationCandidate)] =
      [(⟨.STEEL_SECTION, [⟨"200PFC", "steel", 85, 200, c1, Option.none, "vertical"⟩], 17/40, 19/20, 0⟩ : CalibrationCandidate), (⟨.TIMBER_SIZE, [⟨"200X45", "timber", 84, 200, c2, Option.none, "horizontal"⟩], 21/50, 9/10, 0⟩ : CalibrationCandidate), (⟨.SPACING_PATTERN,
        [⟨"450 CTS", "spacing", s1, 450, c3, Option.none, "horizontal"⟩,
         ⟨"450 CTS", "spacing", s2, 450, c4, Option.none, "horizontal"⟩,
         ⟨"450 CTS", "spacing", s3, 450, c5, Option.none, "horizontal"⟩],
        mean [s1 / 450, s2 / 450, s3 / 450],
        spacingConfidence 3 (sampleVariance [s1 / 450, s2 / 450, s3 / 450]),
        sampleVariance [s1 / 450, s2 / 450, s3 / 450]⟩ : CalibrationCandidate)] := by
    rw [keepConfident, if_pos (show defaultMinConfidence ≤ (19 : ℚ) / 20 by
        norm_num [defaultMinConfidence]),
      keepConfident, if_pos (show defaultMinConfidence ≤ (9 : ℚ) / 10 by
        norm_num [defaultMinConfidence]),
      keepConfident, if_pos (show defaultMinConfidence ≤ spacingConfidence 3 (sampleVariance [s1 / 450, s2 / 450, s3 / 450]) by
        rw [show defaultMinConfidence = 7 / 10 by norm_num [defaultMinConfidence]]
        exact hconfSP),
      keepConfident]
  have haux : selectBestAux (⟨.STEEL_SECTION, [⟨"200PFC", "steel", 85, 200, c1, Option.none, "vertical"⟩], 17/40, 19/20, 0⟩ : CalibrationCandidate) [(⟨.TIMBER_SIZE, [⟨"200X45", "timber", 84, 200, c2, Option.none, "horizontal"⟩], 21/50, 9/10, 0⟩ : CalibrationCandidate), (⟨.SPACING_PATTERN,
        [⟨"450 CTS", "spacing", s1, 450, c3, Option.none, "horizontal"⟩,
         ⟨"450 CTS", "spacing", s2, 450, c4, Option.none, "horizontal"⟩,
         ⟨"450 CTS", "spacing", s3, 450, c5, Option.none, "horizontal"⟩],
        mean [s1 / 450, s2 / 450, s3 / 450],
        spacingConfidence 3 (sampleVariance [s1 / 450, s2 / 450, s3 / 450]),
        sampleVariance [s1 / 450, s2 / 450, s3 / 450]⟩ : CalibrationCandidate)] = (⟨.SPACING_PATTERN,
        [⟨"450 CTS", "spacing", s1, 450, c3, Option.none, "horizontal"⟩,
         ⟨"450 CTS", "spacing", s2, 450, c4, Option.none, "horizontal"⟩,
         ⟨"450 CTS", "spacing", s3, 450, c5, Option.none, "horizontal"⟩],
        mean [s1 / 450, s2 / 450, s3 / 450],
        spacingConfidence 3 (sampleVariance [s1 / 450, s2 / 450, s3 / 450]),
        sampleVariance [s1 / 450, s2 / 450, s3 / 450]⟩ : CalibrationCandidate) := by
    rw [selectBestAux]
    split_ifs with h1
    · rw [selectBestAux, if_pos hSgtT, selectBestAux]
    · rw [selectBestAux, if_pos hSgtS, selectBestAux]
  have hsel : selectBest [(⟨.STEEL_SECTION, [⟨"200PFC", "steel", 85, 200, c1, Option.none, "vertical"⟩], 17/40, 19/20, 0⟩ : CalibrationCandidate), (⟨.TIMBER_SIZE, [⟨"200X45", "timber", 84, 200, c2, Option.none, "horizontal"⟩], 21/50, 9/10, 0⟩ : CalibrationCandidate), (⟨.SPACING_PATTERN,
        [⟨"450 CTS", "spacing", s1, 450, c3, Option.none, "horizontal"⟩,
         ⟨"450 CTS", "spacing", s2, 450, c4, Option.none, "horizontal"⟩,
         ⟨"450 CTS", "spacing", s3, 450, c5, Option.none, "horizontal"⟩],
        mean [s1 / 450, s2 / 450, s3 / 450],
        spacingConfidence 3 (sampleVariance [s1 / 450, s2 / 450, s3 / 450]),
        sampleVariance [s1 / 450, s2 / 450, s3 / 450]⟩ : CalibrationCandidate)] = some (⟨.SPACING_PATTERN,
        [⟨"450 CTS", "spacing", s1, 450, c3, Option.none, "horizontal"⟩,
         ⟨"450 CTS", "spacing", s2, 450, c4, Option.none, "horizontal"⟩,
         ⟨"450 CTS", "spacing", s3, 450, c5, Option.none, "horizontal"⟩],
        mean [s1 / 450, s2 / 450, s3 / 450],
        spacingConfidence 3 (sampleVariance [s1 / 450, s2 / 450, s3 / 450]),
        sampleVariance [s1 / 450, s2 / 450, s3 / 450]⟩ : CalibrationCandidate) := by
    rw [selectBest, haux]
  rw [auto_calibrate, hex, autoCalibrateSelect, hcl, hkeep, hsel]
  rfl

/-- C1 (amended): for the Scenario-B input — one `200PFC` element with
`height_pixels` 85, one `200x45` timber element with `width_pixels` 84,
and three `450 CTS` elements with `spacing_pixels` between 188 and 190,
every element carrying a confidence in `[0.7, 1]` — `auto_calibrate` with
the default threshold selects the *spacing* estimator's candidate
(`method = "spacing_pattern"`), not the steel one: the spacing candidate
contributes three components (count factor 1) against the steel
candidate's single component (count factor 1/3), so its reliability score
is strictly larger whatever the detector confidences are. -/
theorem C1_scenarioB_amended
    (c1 c2 c3 c4 c5 s1 s2 s3 : ℚ)
    (hc1 : 0.7 ≤ c1) (hc1u : c1 ≤ 1)
    (hc2 : 0.7 ≤ c2) (hc2u : c2 ≤ 1)
    (hc3 : 0.7 ≤ c3) (hc3u : c3 ≤ 1)
    (hc4 : 0.7 ≤ c4) (hc4u : c4 ≤ 1)
    (hc5 : 0.7 ≤ c5) (hc5u : c5 ≤ 1)
    (hs1 : 188 ≤ s1) (hs1u : s1 ≤ 190)
    (hs2 : 188 ≤ s2) (hs2u : s2 ≤ 190)
    (hs3 : 188 ≤ s3) (hs3u : s3 ≤ 190) :
    (auto_calibrate defaultMinConfidence
      [⟨"200PFC", some c1, ⟨some 85, Option.none, Option.none⟩, Option.none⟩,
       ⟨"200x45", some c2, ⟨Option.none, some 84, Option.none⟩, Option.none⟩,
       ⟨"450 CTS", some c3, ⟨Option.none, Option.none, some s1⟩, Option.none⟩,
       ⟨"450 CTS", some c4, ⟨Option.none, Option.none, some s2⟩, Option.none⟩,
       ⟨"450 CTS", some c5, ⟨Option.none, Option.none, some s3⟩, Option.none⟩]).method =
      CalibrationMethod.SPACING_PATTERN :=
  scenarioB_selects_spacing c1 c2 c3 c4 c5 s1 s2 s3 hc1 hc1u hc2 hc2u hc3 hc3u
    hc4 hc4u hc5 hc5u hs1 hs1u hs2 hs2u hs3 hs3u

/-- Witness for C1 (amended) at concrete confidences and spacings. -/
theorem C1_scenarioB_witness :
    (auto_calibrate defaultMinConfidence
      [⟨"200PFC", some 1, ⟨some 85, Option.none, Option.none⟩, Option.none⟩,
       ⟨"200x45", some 1, ⟨Option.none, some 84, Option.none⟩, Option.none⟩,
       ⟨"450 CTS", some 0.7, ⟨Option.none, Option.none, some 189⟩, Option.none⟩,
       ⟨"450 CTS", some 0.7, ⟨Option.none, Option.none, some 189⟩, Option.none⟩,
       ⟨"450 CTS", some 0.7, ⟨Option.none, Option.none, some 189⟩, Option.none⟩]).method =
      CalibrationMethod.SPACING_PATTERN :=
  C1_scenarioB_amended 1 1 0.7 0.7 0.7 189 189 189
    (by norm_num) (by norm_num) (by norm_num) (by norm_num) (by norm_num)
    (by norm_num) (by norm_num) (by norm_num) (by norm_num) (by norm_num)
    (by norm_num) (by norm_num) (by norm_num) (by norm_num) (by norm_num)
    (by norm_num)

/-- Counterexample to C1 as stated: on a concrete Scenario-B input
(confidences 0.9/0.9/0.8/0.8/0.8, spacings 188/189/190, all within the
claim's bounds) the selected method is `spacing_pattern`, not
`steel_section`. -/
theorem C1_counterexample :
    (auto_calibrate defaultMinConfidence
      [⟨"200PFC", some 0.9, ⟨some 85, Option.none, Option.none⟩, Option.none⟩,
       ⟨"200x45", some 0.9, ⟨Option.none, some 84, Option.none⟩, Option.none⟩,
       ⟨"450 CTS", some 0.8, ⟨Option.none, Option.none, some 188⟩, Option.none⟩,
       ⟨"450 CTS", some 0.8, ⟨Option.none, Option.none, some 189⟩, Option.none⟩,
       ⟨"450 CTS", some 0.8, ⟨Option.none, Option.none, some 190⟩, Option.none⟩]).method =
      CalibrationMethod.SPACING_PATTERN ∧
    (auto_calibrate defaultMinConfidence
      [⟨"200PFC", some 0.9, ⟨some 85, Option.none, Option.none⟩, Option.none⟩,
       ⟨"200x45", some 0.9, ⟨Option.none, some 84, Option.none⟩, Option.none⟩,
       ⟨"450 CTS", some 0.8, ⟨Option.none, Option.none, some 188⟩, Option.none⟩,
       ⟨"450 CTS", some 0.8, ⟨Option.none, Option.none, some 189⟩, Option.none⟩,
       ⟨"450 CTS", some 0.8, ⟨Option.none, Option.none, some 190⟩, Option.none⟩]).method ≠
      CalibrationMethod.STEEL_SECTION := by
  have h := scenarioB_selects_spacing 0.9 0.9 0.8 0.8 0.8 188 189 190
    (by norm_num) (by norm_num) (by norm_num) (by norm_num) (by norm_num)
    (by norm_num) (by norm_num) (by norm_num) (by norm_num) (by norm_num)
    (by norm_num) (by norm_num) (by norm_num) (by norm_num) (by norm_num)
    (by norm_num)
  refine ⟨h, ?_⟩
  rw [h]
  decide

end CheckMeasure
